import Mathlib

/-!
# Verification of the remote-desktop-rs session engine

Shallow embedding of the core of the `remote-desktop-rs` repository
(wire protocol, TCP framing, diff engine, input gateway, and the server
session state machine) together with proofs about the embedded code.

Each definition is translated from the Rust source file named in its
doc comment.  Machine integers are modelled as `Nat`/`Int` (the Rust
code never relies on wrap-around in the translated fragments), `f32`
ratio arithmetic is modelled with exact rationals (`ℚ`), and fallible
operations return `Except`/`Option`.  Platform backends (OS input
injection, the screen grabber, the file system, clocks) are modelled as
explicit environment records whose results are parameters, and every
call into such a backend is recorded as an explicit effect.
-/

namespace RemoteDesktopRs

/-! ## Diff engine (`src/server/src/capture/diff.rs`) -/

/-- `Rectangle` from `diff.rs`: an axis-aligned rectangle with `u32`
coordinates (modelled as `Nat`). -/
structure Rectangle where
  x : Nat
  y : Nat
  width : Nat
  height : Nat
deriving DecidableEq, Repr

namespace Rectangle

/-- `Rectangle::area`. -/
def area (r : Rectangle) : Nat := r.width * r.height

/-- `Rectangle::overlaps`: the four strict comparisons of the source. -/
def overlaps (a b : Rectangle) : Bool :=
  decide (a.x < b.x + b.width) && decide (a.x + a.width > b.x) &&
  decide (a.y < b.y + b.height) && decide (a.y + a.height > b.y)

/-- `Rectangle::merge`: minimum bounding rectangle of the two inputs. -/
def merge (a b : Rectangle) : Rectangle :=
  let min_x := min a.x b.x
  let min_y := min a.y b.y
  let max_x := max (a.x + a.width) (b.x + b.width)
  let max_y := max (a.y + a.height) (b.y + b.height)
  ⟨min_x, min_y, max_x - min_x, max_y - min_y⟩

end Rectangle

/-- `DiffResult` from `diff.rs`.  The `f32` field `change_ratio` is
modelled as an exact rational. -/
structure DiffResult where
  changed_regions : List Rectangle
  changed_pixels : Nat
  total_pixels : Nat
  change_ratio : ℚ
deriving Repr

/-- `DiffConfig` from `diff.rs`; `change_ratio_threshold : f32` is
modelled as an exact rational. -/
structure DiffConfig where
  block_size : Nat
  threshold : Nat
  change_ratio_threshold : ℚ
  merge_adjacent : Bool
  min_diff_size : Nat
deriving Repr

/-- `DiffConfig::default` from `diff.rs`. -/
def DiffConfig.default : DiffConfig :=
  { block_size := 32, threshold := 15, change_ratio_threshold := 5 / 100,
    merge_adjacent := true, min_diff_size := 8 }

/-- One RGBA8 pixel; channel values are bytes. -/
structure Pixel where
  r : Nat
  g : Nat
  b : Nat
  a : Nat
deriving DecidableEq, Repr

/-- A raw frame (the portion of `DynamicImage` the diff engine reads):
dimensions plus pixel lookup (`get_pixel`). -/
structure Image where
  width : Nat
  height : Nat
  pix : Nat → Nat → Pixel

/-- `pixel_diff` from `diff.rs`: mean absolute channel difference over
R, G, B; alpha ignored.  The value is at most 255, so the final `as u8`
cast of the source is lossless. -/
def pixel_diff (p1 p2 : Pixel) : Nat :=
  let r_diff := (Int.natAbs ((p1.r : Int) - (p2.r : Int)))
  let g_diff := (Int.natAbs ((p1.g : Int) - (p2.g : Int)))
  let b_diff := (Int.natAbs ((p1.b : Int) - (p2.b : Int)))
  (r_diff + g_diff + b_diff) / 3

/-- The block start offsets produced by `(0..len).step_by(block_size)`.
`step_by(0)` panics in Rust, so the model is only meaningful for
`0 < bs`; theorems carry that hypothesis. -/
def blockStarts (len bs : Nat) : List Nat :=
  (List.range ((len + bs - 1) / bs)).map (fun i => i * bs)

/-- Number of changed pixels inside one block: pixels whose
`pixel_diff` strictly exceeds the threshold. -/
def blockChangedPixels (prev cur : Image) (thr : Nat)
    (bx by0 bw bh : Nat) : Nat :=
  ((List.range bh).map (fun dy =>
    ((List.range bw).filter (fun dx =>
      decide (pixel_diff (cur.pix (bx + dx) (by0 + dy))
        (prev.pix (bx + dx) (by0 + dy)) > thr))).length)).sum

/-- All grid blocks of the double loop in `DiffCalculator::calculate`,
each paired with its changed-pixel count. -/
def blockEntries (cfg : DiffConfig) (prev cur : Image) : List (Rectangle × Nat) :=
  (blockStarts cur.height cfg.block_size).flatMap (fun by0 =>
    (blockStarts cur.width cfg.block_size).map (fun bx =>
      let bw := min cfg.block_size (cur.width - bx)
      let bh := min cfg.block_size (cur.height - by0)
      (⟨bx, by0, bw, bh⟩, blockChangedPixels prev cur cfg.threshold bx by0 bw bh)))

/-- The flag test of the source:
`block_changed_pixels / block_pixels >= change_ratio_threshold`
(exact rational arithmetic standing in for the `f32` division). -/
def blockFlagged (cfg : DiffConfig) (e : Rectangle × Nat) : Bool :=
  decide ((e.2 : ℚ) / ((e.1.width * e.1.height : Nat) : ℚ) ≥ cfg.change_ratio_threshold)

/-- One pass of the inner `for j` loop of `merge_adjacent_regions`:
absorb every not-yet-merged region overlapping the current one,
left to right, updating the current region as it goes.  Returns the
grown region, the updated flag list, and whether anything was merged. -/
def sweepOnce (cur : Rectangle) :
    List (Rectangle × Bool) → Rectangle × List (Rectangle × Bool) × Bool
  | [] => (cur, [], false)
  | (r, m) :: rest =>
    if m then
      let (c, l, ch) := sweepOnce cur rest
      (c, (r, m) :: l, ch)
    else if cur.overlaps r then
      let (c, l, _) := sweepOnce (cur.merge r) rest
      (c, (r, true) :: l, true)
    else
      let (c, l, ch) := sweepOnce cur rest
      (c, (r, m) :: l, ch)

/-- The `while merged_any` loop of `merge_adjacent_regions`: repeat
passes until a pass merges nothing.  Each merging pass marks at least
one fresh flag, so `length + 1` passes always reach the fixpoint; the
fuel argument makes that termination bound explicit. -/
def sweepLoop : Nat → Rectangle → List (Rectangle × Bool) →
    Rectangle × List (Rectangle × Bool)
  | 0, cur, l => (cur, l)
  | fuel + 1, cur, l =>
    let (c, l2, ch) := sweepOnce cur l
    if ch then sweepLoop fuel c l2 else (c, l2)

/-- The outer `for i` loop of `merge_adjacent_regions`, walking the
index over the (evolving) flagged vector.  `steps` counts the indices
that remain to be visited. -/
def mergeOuter : List (Rectangle × Bool) → Nat → Nat → List Rectangle
  | _, _, 0 => []
  | l, i, steps + 1 =>
    match l[i]? with
    | none => []
    | some (r, m) =>
      if m then mergeOuter l (i + 1) steps
      else
        let l2 := l.set i (r, true)
        let (c, l3) := sweepLoop (l2.length + 1) r l2
        c :: mergeOuter l3 (i + 1) steps

/-- `merge_adjacent_regions` from `diff.rs`. -/
def merge_adjacent_regions (regions : List Rectangle) : List Rectangle :=
  if regions.isEmpty then regions
  else mergeOuter (regions.map (fun r => (r, false))) 0 regions.length

/-- `DiffCalculator::calculate`.  The calculator state is the stored
previous image (`Option Image`); the result is the `DiffResult`
together with the new stored image. -/
def calculate (cfg : DiffConfig) (previous : Option Image) (cur : Image) :
    DiffResult × Option Image :=
  match previous with
  | none =>
    let total := cur.width * cur.height
    ({ changed_regions := [⟨0, 0, cur.width, cur.height⟩],
       changed_pixels := total, total_pixels := total, change_ratio := 1 },
     some cur)
  | some prev =>
    if prev.width ≠ cur.width ∨ prev.height ≠ cur.height then
      let total := cur.width * cur.height
      ({ changed_regions := [⟨0, 0, cur.width, cur.height⟩],
         changed_pixels := total, total_pixels := total, change_ratio := 1 },
       some cur)
    else
      let total := cur.width * cur.height
      let flagged := (blockEntries cfg prev cur).filter (blockFlagged cfg)
      let changed_pixels_count := (flagged.map (fun e => e.2)).sum
      let merged :=
        if cfg.merge_adjacent then
          merge_adjacent_regions (flagged.map (fun e => e.1))
        else
          flagged.map (fun e => e.1)
      let changed_regions :=
        if 0 < cfg.min_diff_size then
          merged.filter (fun r =>
            decide (r.width ≥ cfg.min_diff_size) && decide (r.height ≥ cfg.min_diff_size))
        else merged
      ({ changed_regions := changed_regions,
         changed_pixels := changed_pixels_count,
         total_pixels := total,
         change_ratio := (changed_pixels_count : ℚ) / (total : ℚ) },
       some cur)

/-! ## Wire protocol data model (`src/common/src/protocol.rs`)

The serde data model of a JSON document.  serde_json serializes every
number through one lexical class; both the integer fields and the one
`f32` field (`SystemInfo.cpu_usage`) are modelled through exact
rationals (finite `f32` values round-trip exactly through serde_json's
shortest-decimal printing, which this level of the model assumes). -/

inductive Json where
  | null
  | bool (b : Bool)
  | num (q : ℚ)
  | str (s : String)
  | arr (elems : List Json)
  | obj (fields : List (String × Json))

/-- `MouseButton` from `protocol.rs`. -/
inductive MouseButton where
  | Left | Right | Middle | Back | Forward
deriving DecidableEq, Repr

/-- `KeyModifier` from `protocol.rs`. -/
inductive KeyModifier where
  | Shift | Control | Alt | Meta | CapsLock | NumLock
deriving DecidableEq, Repr

/-- `ImageFormat` from `protocol.rs`. -/
inductive ImageFormat where
  | JPEG | PNG | WebP | AVIF
deriving DecidableEq, Repr

/-- `ClientInfo` from `protocol.rs` (`u32` fields as `Nat`). -/
structure ClientInfo where
  app_name : String
  version : String
  os_type : String
  os_version : String
  device_name : String
  screen_width : Nat
  screen_height : Nat
  capabilities : List String
deriving Repr

/-- `Command` from `protocol.rs`.  `u8`/`u32`/`u64`/`usize` fields are
`Nat`, `i32` fields are `Int`, `Vec<u8>` is `List Nat`. -/
inductive Command where
  | Authenticate (username : String) (password_hash : String) (client_info : ClientInfo)
  | RequestScreenshot (quality : Option Nat) (width : Option Nat)
      (height : Option Nat) (monitor : Option Nat)
  | MouseMove (x : Int) (y : Int)
  | MouseClick (button : MouseButton) (double : Bool)
  | MouseDown (button : MouseButton)
  | MouseUp (button : MouseButton)
  | MouseScroll (delta_x : Int) (delta_y : Int)
  | KeyDown (key_code : Nat) (modifiers : List KeyModifier)
  | KeyUp (key_code : Nat) (modifiers : List KeyModifier)
  | TextInput (text : String)
  | KeyCombo (key_codes : List Nat) (modifiers : List KeyModifier)
  | SetQuality (quality : Nat)
  | SetImageFormat (format : ImageFormat)
  | SetFps (fps : Nat)
  | RunApplication (command : String)
  | RequestSystemInfo
  | RequestClipboardContent
  | SetClipboardContent (content : String)
  | StartFileTransfer (filename : String) (size : Nat) (checksum : String)
  | FileData (transfer_id : Nat) (data : List Nat) (offset : Nat)
  | Ping (timestamp : Nat)
  | Disconnect

/-- `Response` from `protocol.rs`.  `CommandResult.data` is an
`Option serde_json::Value` (= `Option Json` here); `SystemInfo.cpu_usage`
is the one `f32` field, modelled as an exact rational. -/
inductive Response where
  | AuthResult (success : Bool) (message : String)
  | ScreenshotData (data : List Nat) (format : ImageFormat)
      (width : Nat) (height : Nat) (timestamp : Nat)
  | CommandResult (success : Bool) (message : String) (data : Option Json)
  | SystemInfo (cpu_model : String) (cpu_usage : ℚ) (total_memory : Nat)
      (used_memory : Nat) (os_version : String) (hostname : String) (uptime : Nat)
  | ClipboardContent (content : String)
  | FileTransferStatus (transfer_id : Nat) (success : Bool) (message : String)
      (progress : Nat) (total_size : Nat)
  | ConnectionStatus (connected : Bool) (message : String)
  | Pong (original_timestamp : Nat) (server_time : Nat)
  | Error (code : Int) (message : String)

/-! ## JSON codec for the protocol (serde derive semantics)

`#[derive(Serialize, Deserialize)]` on `Command`/`Response` produces the
externally-tagged representation: a unit variant serializes to its name
as a JSON string, every other variant to a one-entry object
`{"VariantName": {fields...}}` with the fields in declaration order.
The decoders below accept the canonical encodings (integer fields are
range-checked the way serde's integer visitors are). -/

def encU (n : Nat) : Json := .num (Rat.ofInt (Int.ofNat n))

def encI (i : Int) : Json := .num (Rat.ofInt i)

/-- serde unsigned-integer visitor: a JSON number that is a non-negative
integer strictly below `bound`. -/
def decNatLt (bound : Nat) : Json → Option Nat
  | .num q =>
    if q.den = 1 ∧ 0 ≤ q.num ∧ q.num < Int.ofNat bound then some q.num.toNat else none
  | _ => none

/-- serde signed-integer visitor with the `i32` range. -/
def decIntRange (lo hi : Int) : Json → Option Int
  | .num q => if q.den = 1 ∧ lo ≤ q.num ∧ q.num < hi then some q.num else none
  | _ => none

/-- serde `f32` visitor, at the exact-rational level of this model. -/
def decRat : Json → Option ℚ
  | .num q => some q
  | _ => none

def decBool : Json → Option Bool
  | .bool b => some b
  | _ => none

def decStr : Json → Option String
  | .str s => some s
  | _ => none

def decListWith (d : Json → Option α) : List Json → Option (List α)
  | [] => some []
  | j :: rest => do
    let x ← d j
    let xs ← decListWith d rest
    some (x :: xs)

def decArr (d : Json → Option α) : Json → Option (List α)
  | .arr xs => decListWith d xs
  | _ => none

/-- `Option<T>` serialization: `None ↦ null`, `Some x ↦ enc x`. -/
def encOptWith (e : α → Json) : Option α → Json
  | none => .null
  | some x => e x

/-- `Option<T>` deserialization: `null ↦ None`, otherwise the inner
visitor.  (This is the collapse that makes `Some(Value::Null)` decode
back to `None` for `Option<serde_json::Value>` fields.) -/
def decOptWith (d : Json → Option α) : Json → Option (Option α)
  | .null => some none
  | .bool b => (d (.bool b)).map some
  | .num q => (d (.num q)).map some
  | .str s => (d (.str s)).map some
  | .arr xs => (d (.arr xs)).map some
  | .obj fs => (d (.obj fs)).map some

/-- Field lookup in a serde map (serde matches fields by name). -/
def jLookup : List (String × Json) → String → Option Json
  | [], _ => none
  | (k, v) :: rest, key => if k = key then some v else jLookup rest key

/-- A required struct field: missing field is an error. -/
def reqField (fields : List (String × Json)) (key : String)
    (d : Json → Option α) : Option α :=
  match jLookup fields key with
  | none => none
  | some j => d j

/-- An `Option` struct field: serde treats a missing `Option` field as
`None`. -/
def optField (fields : List (String × Json)) (key : String)
    (d : Json → Option α) : Option (Option α) :=
  match jLookup fields key with
  | none => some none
  | some j => decOptWith d j

def u8Lim : Nat := 256
def u32Lim : Nat := 4294967296
def u64Lim : Nat := 18446744073709551616
def i32Lo : Int := -2147483648
def i32Hi : Int := 2147483648

def encMouseButton : MouseButton → Json
  | .Left => .str "Left"
  | .Right => .str "Right"
  | .Middle => .str "Middle"
  | .Back => .str "Back"
  | .Forward => .str "Forward"

def decMouseButton : Json → Option MouseButton
  | .str s =>
    if s = "Left" then some .Left
    else if s = "Right" then some .Right
    else if s = "Middle" then some .Middle
    else if s = "Back" then some .Back
    else if s = "Forward" then some .Forward
    else none
  | _ => none

def encKeyModifier : KeyModifier → Json
  | .Shift => .str "Shift"
  | .Control => .str "Control"
  | .Alt => .str "Alt"
  | .Meta => .str "Meta"
  | .CapsLock => .str "CapsLock"
  | .NumLock => .str "NumLock"

def decKeyModifier : Json → Option KeyModifier
  | .str s =>
    if s = "Shift" then some .Shift
    else if s = "Control" then some .Control
    else if s = "Alt" then some .Alt
    else if s = "Meta" then some .Meta
    else if s = "CapsLock" then some .CapsLock
    else if s = "NumLock" then some .NumLock
    else none
  | _ => none

def encImageFormat : ImageFormat → Json
  | .JPEG => .str "JPEG"
  | .PNG => .str "PNG"
  | .WebP => .str "WebP"
  | .AVIF => .str "AVIF"

def decImageFormat : Json → Option ImageFormat
  | .str s =>
    if s = "JPEG" then some .JPEG
    else if s = "PNG" then some .PNG
    else if s = "WebP" then some .WebP
    else if s = "AVIF" then some .AVIF
    else none
  | _ => none

def encClientInfo (ci : ClientInfo) : Json :=
  .obj [("app_name", .str ci.app_name), ("version", .str ci.version),
        ("os_type", .str ci.os_type), ("os_version", .str ci.os_version),
        ("device_name", .str ci.device_name), ("screen_width", encU ci.screen_width),
        ("screen_height", encU ci.screen_height),
        ("capabilities", .arr (ci.capabilities.map Json.str))]

def decClientInfo : Json → Option ClientInfo
  | .obj fs => do
    let app_name ← reqField fs "app_name" decStr
    let version ← reqField fs "version" decStr
    let os_type ← reqField fs "os_type" decStr
    let os_version ← reqField fs "os_version" decStr
    let device_name ← reqField fs "device_name" decStr
    let screen_width ← reqField fs "screen_width" (decNatLt u32Lim)
    let screen_height ← reqField fs "screen_height" (decNatLt u32Lim)
    let capabilities ← reqField fs "capabilities" (decArr decStr)
    some ⟨app_name, version, os_type, os_version, device_name,
          screen_width, screen_height, capabilities⟩
  | _ => none

/-- serde serialization of `Command` (externally tagged). -/
def toJsonCommand : Command → Json
  | .Authenticate u p ci =>
    .obj [("Authenticate", .obj [("username", .str u), ("password_hash", .str p),
          ("client_info", encClientInfo ci)])]
  | .RequestScreenshot q w h m =>
    .obj [("RequestScreenshot", .obj [("quality", encOptWith encU q),
          ("width", encOptWith encU w), ("height", encOptWith encU h),
          ("monitor", encOptWith encU m)])]
  | .MouseMove x y =>
    .obj [("MouseMove", .obj [("x", encI x), ("y", encI y)])]
  | .MouseClick b d =>
    .obj [("MouseClick", .obj [("button", encMouseButton b), ("double", .bool d)])]
  | .MouseDown b => .obj [("MouseDown", .obj [("button", encMouseButton b)])]
  | .MouseUp b => .obj [("MouseUp", .obj [("button", encMouseButton b)])]
  | .MouseScroll dx dy =>
    .obj [("MouseScroll", .obj [("delta_x", encI dx), ("delta_y", encI dy)])]
  | .KeyDown k ms =>
    .obj [("KeyDown", .obj [("key_code", encU k),
          ("modifiers", .arr (ms.map encKeyModifier))])]
  | .KeyUp k ms =>
    .obj [("KeyUp", .obj [("key_code", encU k),
          ("modifiers", .arr (ms.map encKeyModifier))])]
  | .TextInput t => .obj [("TextInput", .obj [("text", .str t)])]
  | .KeyCombo ks ms =>
    .obj [("KeyCombo", .obj [("key_codes", .arr (ks.map encU)),
          ("modifiers", .arr (ms.map encKeyModifier))])]
  | .SetQuality q => .obj [("SetQuality", .obj [("quality", encU q)])]
  | .SetImageFormat f => .obj [("SetImageFormat", .obj [("format", encImageFormat f)])]
  | .SetFps f => .obj [("SetFps", .obj [("fps", encU f)])]
  | .RunApplication c => .obj [("RunApplication", .obj [("command", .str c)])]
  | .RequestSystemInfo => .str "RequestSystemInfo"
  | .RequestClipboardContent => .str "RequestClipboardContent"
  | .SetClipboardContent c => .obj [("SetClipboardContent", .obj [("content", .str c)])]
  | .StartFileTransfer f s c =>
    .obj [("StartFileTransfer", .obj [("filename", .str f), ("size", encU s),
          ("checksum", .str c)])]
  | .FileData id d o =>
    .obj [("FileData", .obj [("transfer_id", encU id),
          ("data", .arr (d.map encU)), ("offset", encU o)])]
  | .Ping t => .obj [("Ping", .obj [("timestamp", encU t)])]
  | .Disconnect => .str "Disconnect"

def decAuthenticateBody : Json → Option Command
  | .obj fs => do
    let u ← reqField fs "username" decStr
    let p ← reqField fs "password_hash" decStr
    let ci ← reqField fs "client_info" decClientInfo
    some (.Authenticate u p ci)
  | _ => none

def decRequestScreenshotBody : Json → Option Command
  | .obj fs => do
    let q ← optField fs "quality" (decNatLt u8Lim)
    let w ← optField fs "width" (decNatLt u32Lim)
    let h ← optField fs "height" (decNatLt u32Lim)
    let m ← optField fs "monitor" (decNatLt u64Lim)
    some (.RequestScreenshot q w h m)
  | _ => none

def decMouseMoveBody : Json → Option Command
  | .obj fs => do
    let x ← reqField fs "x" (decIntRange i32Lo i32Hi)
    let y ← reqField fs "y" (decIntRange i32Lo i32Hi)
    some (.MouseMove x y)
  | _ => none

def decMouseClickBody : Json → Option Command
  | .obj fs => do
    let b ← reqField fs "button" decMouseButton
    let d ← reqField fs "double" decBool
    some (.MouseClick b d)
  | _ => none

def decMouseDownBody : Json → Option Command
  | .obj fs => do
    let b ← reqField fs "button" decMouseButton
    some (.MouseDown b)
  | _ => none

def decMouseUpBody : Json → Option Command
  | .obj fs => do
    let b ← reqField fs "button" decMouseButton
    some (.MouseUp b)
  | _ => none

def decMouseScrollBody : Json → Option Command
  | .obj fs => do
    let dx ← reqField fs "delta_x" (decIntRange i32Lo i32Hi)
    let dy ← reqField fs "delta_y" (decIntRange i32Lo i32Hi)
    some (.MouseScroll dx dy)
  | _ => none

def decKeyDownBody : Json → Option Command
  | .obj fs => do
    let k ← reqField fs "key_code" (decNatLt u32Lim)
    let ms ← reqField fs "modifiers" (decArr decKeyModifier)
    some (.KeyDown k ms)
  | _ => none

def decKeyUpBody : Json → Option Command
  | .obj fs => do
    let k ← reqField fs "key_code" (decNatLt u32Lim)
    let ms ← reqField fs "modifiers" (decArr decKeyModifier)
    some (.KeyUp k ms)
  | _ => none

def decTextInputBody : Json → Option Command
  | .obj fs => do
    let t ← reqField fs "text" decStr
    some (.TextInput t)
  | _ => none

def decKeyComboBody : Json → Option Command
  | .obj fs => do
    let ks ← reqField fs "key_codes" (decArr (decNatLt u32Lim))
    let ms ← reqField fs "modifiers" (decArr decKeyModifier)
    some (.KeyCombo ks ms)
  | _ => none

def decSetQualityBody : Json → Option Command
  | .obj fs => do
    let q ← reqField fs "quality" (decNatLt u8Lim)
    some (.SetQuality q)
  | _ => none

def decSetImageFormatBody : Json → Option Command
  | .obj fs => do
    let f ← reqField fs "format" decImageFormat
    some (.SetImageFormat f)
  | _ => none

def decSetFpsBody : Json → Option Command
  | .obj fs => do
    let f ← reqField fs "fps" (decNatLt u8Lim)
    some (.SetFps f)
  | _ => none

def decRunApplicationBody : Json → Option Command
  | .obj fs => do
    let c ← reqField fs "command" decStr
    some (.RunApplication c)
  | _ => none

def decSetClipboardContentBody : Json → Option Command
  | .obj fs => do
    let c ← reqField fs "content" decStr
    some (.SetClipboardContent c)
  | _ => none

def decStartFileTransferBody : Json → Option Command
  | .obj fs => do
    let f ← reqField fs "filename" decStr
    let s ← reqField fs "size" (decNatLt u64Lim)
    let c ← reqField fs "checksum" decStr
    some (.StartFileTransfer f s c)
  | _ => none

def decFileDataBody : Json → Option Command
  | .obj fs => do
    let id ← reqField fs "transfer_id" (decNatLt u32Lim)
    let d ← reqField fs "data" (decArr (decNatLt u8Lim))
    let o ← reqField fs "offset" (decNatLt u64Lim)
    some (.FileData id d o)
  | _ => none

def decPingBody : Json → Option Command
  | .obj fs => do
    let t ← reqField fs "timestamp" (decNatLt u64Lim)
    some (.Ping t)
  | _ => none

/-- serde deserialization of `Command` (externally tagged). -/
def fromJsonCommand : Json → Option Command
  | .str s =>
    if s = "RequestSystemInfo" then some .RequestSystemInfo
    else if s = "RequestClipboardContent" then some .RequestClipboardContent
    else if s = "Disconnect" then some .Disconnect
    else none
  | .obj [(tag, body)] =>
    if tag = "Authenticate" then decAuthenticateBody body
    else if tag = "RequestScreenshot" then decRequestScreenshotBody body
    else if tag = "MouseMove" then decMouseMoveBody body
    else if tag = "MouseClick" then decMouseClickBody body
    else if tag = "MouseDown" then decMouseDownBody body
    else if tag = "MouseUp" then decMouseUpBody body
    else if tag = "MouseScroll" then decMouseScrollBody body
    else if tag = "KeyDown" then decKeyDownBody body
    else if tag = "KeyUp" then decKeyUpBody body
    else if tag = "TextInput" then decTextInputBody body
    else if tag = "KeyCombo" then decKeyComboBody body
    else if tag = "SetQuality" then decSetQualityBody body
    else if tag = "SetImageFormat" then decSetImageFormatBody body
    else if tag = "SetFps" then decSetFpsBody body
    else if tag = "RunApplication" then decRunApplicationBody body
    else if tag = "SetClipboardContent" then decSetClipboardContentBody body
    else if tag = "StartFileTransfer" then decStartFileTransferBody body
    else if tag = "FileData" then decFileDataBody body
    else if tag = "Ping" then decPingBody body
    else none
  | _ => none

/-- serde serialization of `Response` (externally tagged). -/
def toJsonResponse : Response → Json
  | .AuthResult s m =>
    .obj [("AuthResult", .obj [("success", .bool s), ("message", .str m)])]
  | .ScreenshotData d f w h t =>
    .obj [("ScreenshotData", .obj [("data", .arr (d.map encU)),
          ("format", encImageFormat f), ("width", encU w), ("height", encU h),
          ("timestamp", encU t)])]
  | .CommandResult s m d =>
    .obj [("CommandResult", .obj [("success", .bool s), ("message", .str m),
          ("data", encOptWith id d)])]
  | .SystemInfo cm cu tm um ov hn up =>
    .obj [("SystemInfo", .obj [("cpu_model", .str cm), ("cpu_usage", .num cu),
          ("total_memory", encU tm), ("used_memory", encU um),
          ("os_version", .str ov), ("hostname", .str hn), ("uptime", encU up)])]
  | .ClipboardContent c =>
    .obj [("ClipboardContent", .obj [("content", .str c)])]
  | .FileTransferStatus id s m p t =>
    .obj [("FileTransferStatus", .obj [("transfer_id", encU id), ("success", .bool s),
          ("message", .str m), ("progress", encU p), ("total_size", encU t)])]
  | .ConnectionStatus c m =>
    .obj [("ConnectionStatus", .obj [("connected", .bool c), ("message", .str m)])]
  | .Pong o s =>
    .obj [("Pong", .obj [("original_timestamp", encU o), ("server_time", encU s)])]
  | .Error c m =>
    .obj [("Error", .obj [("code", encI c), ("message", .str m)])]

def decAuthResultBody : Json → Option Response
  | .obj fs => do
    let s ← reqField fs "success" decBool
    let m ← reqField fs "message" decStr
    some (.AuthResult s m)
  | _ => none

def decScreenshotDataBody : Json → Option Response
  | .obj fs => do
    let d ← reqField fs "data" (decArr (decNatLt u8Lim))
    let f ← reqField fs "format" decImageFormat
    let w ← reqField fs "width" (decNatLt u32Lim)
    let h ← reqField fs "height" (decNatLt u32Lim)
    let t ← reqField fs "timestamp" (decNatLt u64Lim)
    some (.ScreenshotData d f w h t)
  | _ => none

def decCommandResultBody : Json → Option Response
  | .obj fs => do
    let s ← reqField fs "success" decBool
    let m ← reqField fs "message" decStr
    let d ← optField fs "data" some
    some (.CommandResult s m d)
  | _ => none

def decSystemInfoBody : Json → Option Response
  | .obj fs => do
    let cm ← reqField fs "cpu_model" decStr
    let cu ← reqField fs "cpu_usage" decRat
    let tm ← reqField fs "total_memory" (decNatLt u64Lim)
    let um ← reqField fs "used_memory" (decNatLt u64Lim)
    let ov ← reqField fs "os_version" decStr
    let hn ← reqField fs "hostname" decStr
    let up ← reqField fs "uptime" (decNatLt u64Lim)
    some (.SystemInfo cm cu tm um ov hn up)
  | _ => none

def decClipboardContentBody : Json → Option Response
  | .obj fs => do
    let c ← reqField fs "content" decStr
    some (.ClipboardContent c)
  | _ => none

def decFileTransferStatusBody : Json → Option Response
  | .obj fs => do
    let id ← reqField fs "transfer_id" (decNatLt u32Lim)
    let s ← reqField fs "success" decBool
    let m ← reqField fs "message" decStr
    let p ← reqField fs "progress" (decNatLt u64Lim)
    let t ← reqField fs "total_size" (decNatLt u64Lim)
    some (.FileTransferStatus id s m p t)
  | _ => none

def decConnectionStatusBody : Json → Option Response
  | .obj fs => do
    let c ← reqField fs "connected" decBool
    let m ← reqField fs "message" decStr
    some (.ConnectionStatus c m)
  | _ => none

def decPongBody : Json → Option Response
  | .obj fs => do
    let o ← reqField fs "original_timestamp" (decNatLt u64Lim)
    let s ← reqField fs "server_time" (decNatLt u64Lim)
    some (.Pong o s)
  | _ => none

def decErrorBody : Json → Option Response
  | .obj fs => do
    let c ← reqField fs "code" (decIntRange i32Lo i32Hi)
    let m ← reqField fs "message" decStr
    some (.Error c m)
  | _ => none

/-- serde deserialization of `Response` (externally tagged). -/
def fromJsonResponse : Json → Option Response
  | .obj [(tag, body)] =>
    if tag = "AuthResult" then decAuthResultBody body
    else if tag = "ScreenshotData" then decScreenshotDataBody body
    else if tag = "CommandResult" then decCommandResultBody body
    else if tag = "SystemInfo" then decSystemInfoBody body
    else if tag = "ClipboardContent" then decClipboardContentBody body
    else if tag = "FileTransferStatus" then decFileTransferStatusBody body
    else if tag = "ConnectionStatus" then decConnectionStatusBody body
    else if tag = "Pong" then decPongBody body
    else if tag = "Error" then decErrorBody body
    else none
  | _ => none

/-- The `Command` values representable in the Rust types: every integer
field fits its machine width. -/
def wfCommand : Command → Bool
  | .Authenticate _ _ ci =>
    decide (ci.screen_width < u32Lim) && decide (ci.screen_height < u32Lim)
  | .RequestScreenshot q w h m =>
    (q.all fun n => decide (n < u8Lim)) && (w.all fun n => decide (n < u32Lim)) &&
    (h.all fun n => decide (n < u32Lim)) && (m.all fun n => decide (n < u64Lim))
  | .MouseMove x y =>
    decide (i32Lo ≤ x) && decide (x < i32Hi) && decide (i32Lo ≤ y) && decide (y < i32Hi)
  | .MouseClick _ _ => true
  | .MouseDown _ => true
  | .MouseUp _ => true
  | .MouseScroll dx dy =>
    decide (i32Lo ≤ dx) && decide (dx < i32Hi) && decide (i32Lo ≤ dy) && decide (dy < i32Hi)
  | .KeyDown k _ => decide (k < u32Lim)
  | .KeyUp k _ => decide (k < u32Lim)
  | .TextInput _ => true
  | .KeyCombo ks _ => ks.all fun k => decide (k < u32Lim)
  | .SetQuality q => decide (q < u8Lim)
  | .SetImageFormat _ => true
  | .SetFps f => decide (f < u8Lim)
  | .RunApplication _ => true
  | .RequestSystemInfo => true
  | .RequestClipboardContent => true
  | .SetClipboardContent _ => true
  | .StartFileTransfer _ s _ => decide (s < u64Lim)
  | .FileData id d o =>
    decide (id < u32Lim) && (d.all fun b => decide (b < u8Lim)) && decide (o < u64Lim)
  | .Ping t => decide (t < u64Lim)
  | .Disconnect => true

/-- The `Response` values representable in the Rust types. -/
def wfResponse : Response → Bool
  | .AuthResult _ _ => true
  | .ScreenshotData d _ w h t =>
    (d.all fun b => decide (b < u8Lim)) && decide (w < u32Lim) &&
    decide (h < u32Lim) && decide (t < u64Lim)
  | .CommandResult _ _ _ => true
  | .SystemInfo _ _ tm um _ _ up =>
    decide (tm < u64Lim) && decide (um < u64Lim) && decide (up < u64Lim)
  | .ClipboardContent _ => true
  | .FileTransferStatus id _ _ p t =>
    decide (id < u32Lim) && decide (p < u64Lim) && decide (t < u64Lim)
  | .ConnectionStatus _ _ => true
  | .Pong o s => decide (o < u64Lim) && decide (s < u64Lim)
  | .Error c _ => decide (i32Lo ≤ c) && decide (c < i32Hi)

/-- `Some(Value::Null)` in a `CommandResult.data` field is the one
representable value the serde `Option`/`Value` encoding cannot keep:
it serializes to `null`, which deserializes back to `None`. -/
def dataFieldStable : Response → Bool
  | .CommandResult _ _ (some .null) => false
  | _ => true

/-! ## TCP wire framing (`src/server/src/network/tcp_server.rs`)

`TcpClientConnection::receive_message` and
`TlsClientConnection::receive_message` are byte-for-byte identical:
read a 4-byte big-endian length prefix, then read exactly that many
payload bytes.  There is no upper bound on the length anywhere in the
function.  The byte stream is modelled as the list of bytes available
on the socket; `read_exact` past the end of the stream is the I/O
error case. -/

/-- `u32::from_be_bytes` on a 4-byte list. -/
def beU32 : List Nat → Nat
  | [a, b, c, d] => ((a * 256 + b) * 256 + c) * 256 + d
  | _ => 0

/-- `u32::to_be_bytes` (the sender side `len.to_be_bytes()`); the Rust
`as u32` cast of a `usize` length truncates modulo `2^32`. -/
def lenBytesBE (n : Nat) : List Nat :=
  [n % 2 ^ 32 / 2 ^ 24, n % 2 ^ 24 / 2 ^ 16, n % 2 ^ 16 / 2 ^ 8, n % 2 ^ 8]

/-- `receive_message`: returns the payload and the bytes left on the
stream, or an error when `read_exact` hits end-of-stream. -/
def receive_message (stream : List Nat) : Except String (List Nat × List Nat) :=
  if stream.length < 4 then .error "read_exact"
  else
    let len := beU32 (stream.take 4)
    let rest := stream.drop 4
    if rest.length < len then .error "read_exact"
    else .ok (rest.take len, rest.drop len)

/-! ## File-transfer target paths (`src/server/src/network/session.rs`)

`CommandProcessor::start_file_transfer` computes
`Path::new("received_files").join(filename)` and creates that file.
`Path::join` with an absolute argument replaces the base path, and no
component of the filename is inspected, so `..` components survive into
the created path. -/

/-- Whether a path is absolute (begins with the separator). -/
def startsWithSlash (p : String) : Bool :=
  match p.data with
  | '/' :: _ => true
  | _ => false

/-- `Path::join` (POSIX semantics, as used by the server). -/
def pathJoin (base filename : String) : String :=
  if startsWithSlash filename then filename else base ++ "/" ++ filename

/-- Split a character list on `/` (the components `Path` would see). -/
def splitOnSlashAux : List Char → List Char → List (List Char)
  | [], acc => [acc.reverse]
  | c :: rest, acc =>
    if c = '/' then acc.reverse :: splitOnSlashAux rest []
    else splitOnSlashAux rest (c :: acc)

def pathComponentChunks (p : String) : List (List Char) :=
  splitOnSlashAux p.data []

/-- Resolve `.` and `..` components the way the OS resolves the final
path, to state where a created file actually lands. -/
def resolvedComponents (p : String) : List (List Char) :=
  (pathComponentChunks p).foldl (fun acc comp =>
    if comp = [] ∨ comp = ['.'] then acc
    else if comp = ['.', '.'] then acc.dropLast
    else acc ++ [comp]) []

/-- Whether a path, once resolved, names a file strictly inside the
directory `base` (relative to the server's working directory). -/
def staysInside (base p : String) : Bool :=
  !(startsWithSlash p) &&
    match resolvedComponents p with
    | b :: _ :: _ => decide (b = base.data)
    | _ => false

/-- Join components back with `/` (for `Path::parent`). -/
def joinSlash : List (List Char) → List Char
  | [] => []
  | [c] => c
  | c :: rest => c ++ '/' :: joinSlash rest

/-! ## Input gateway (`src/server/src/input/mod.rs`)

`InputHandler::handle_command` checks the global `enabled` flag, then
the per-device flag, and performs at most one call into the keyboard or
mouse backend (`mouse.rs`/`keyboard.rs`, platform collaborators).  The
backend is modelled as a function from operations to an optional
(displayed) `InputError`; every backend call is recorded. -/

/-- `KeyboardConfig` from `input/mod.rs`. -/
structure KeyboardConfig where
  enabled : Bool
  key_mapping : Bool
  block_shortcuts : Bool
deriving Repr

def KeyboardConfig.default : KeyboardConfig :=
  { enabled := true, key_mapping := true, block_shortcuts := true }

/-- `MouseConfig` from `input/mod.rs` (`scroll_speed : f32` as ℚ). -/
structure MouseConfig where
  enabled : Bool
  use_relative : Bool
  scroll_speed : ℚ
deriving Repr

def MouseConfig.default : MouseConfig :=
  { enabled := true, use_relative := false, scroll_speed := 1 }

/-- `InputConfig` from `input/mod.rs`. -/
structure InputConfig where
  enabled : Bool
  keyboard : KeyboardConfig
  mouse : MouseConfig
deriving Repr

def InputConfig.default : InputConfig :=
  { enabled := true, keyboard := KeyboardConfig.default, mouse := MouseConfig.default }

/-- The leaf operations `input/mod.rs` performs on the mouse/keyboard
backends (wire codes; the internal key mapping lives in the backend
collaborators). -/
inductive BackendOp where
  | moveTo (x y : Int)
  | click (b : MouseButton)
  | doubleClick (b : MouseButton)
  | buttonDown (b : MouseButton)
  | buttonUp (b : MouseButton)
  | scroll (dx dy : Int)
  | keyDown (k : Nat) (ms : List KeyModifier)
  | keyUp (k : Nat) (ms : List KeyModifier)
  | inputText (t : String)
  | keyCombo (ks : List Nat) (ms : List KeyModifier)
deriving DecidableEq, Repr

/-- Run one backend call if the per-device flag allows it (a disabled
device silently succeeds, as in the source). -/
def runBackendOp (deviceEnabled : Bool) (backend : BackendOp → Option String)
    (op : BackendOp) : List BackendOp × Except String Unit :=
  if deviceEnabled then
    ([op], match backend op with
           | none => .ok ()
           | some e => .error e)
  else ([], .ok ())

/-- `InputHandler::handle_command`. -/
def inputHandleCommand (cfg : InputConfig) (backend : BackendOp → Option String) :
    Command → List BackendOp × Except String Unit := fun c =>
  if !cfg.enabled then ([], .ok ())
  else
    match c with
    | .MouseMove x y => runBackendOp cfg.mouse.enabled backend (.moveTo x y)
    | .MouseClick b d =>
      runBackendOp cfg.mouse.enabled backend (if d then .doubleClick b else .click b)
    | .MouseDown b => runBackendOp cfg.mouse.enabled backend (.buttonDown b)
    | .MouseUp b => runBackendOp cfg.mouse.enabled backend (.buttonUp b)
    | .MouseScroll dx dy => runBackendOp cfg.mouse.enabled backend (.scroll dx dy)
    | .KeyDown k ms => runBackendOp cfg.keyboard.enabled backend (.keyDown k ms)
    | .KeyUp k ms => runBackendOp cfg.keyboard.enabled backend (.keyUp k ms)
    | .TextInput t => runBackendOp cfg.keyboard.enabled backend (.inputText t)
    | .KeyCombo ks ms => runBackendOp cfg.keyboard.enabled backend (.keyCombo ks ms)
    | _ => ([], .ok ())

/-- The nine wire commands routed through the input gateway. -/
def isInputCommand : Command → Bool
  | .MouseMove _ _ | .MouseClick _ _ | .MouseDown _ | .MouseUp _
  | .MouseScroll _ _ | .KeyDown _ _ | .KeyUp _ _ | .TextInput _
  | .KeyCombo _ _ => true
  | _ => false

/-! ## Session engine (`src/server/src/network/session.rs` and
`src/server/src/network/mod.rs`) -/

/-- `ServerConfig` from `network/mod.rs`. -/
structure ServerConfig where
  bind_address : String
  port : Nat
  use_tls : Bool
  tls_cert_path : Option String
  tls_key_path : Option String
  require_auth : Bool
  max_connections : Nat
  client_timeout : Nat
  keep_alive_interval : Nat
deriving Repr

/-- `ServerConfig::default` from `network/mod.rs`. -/
def ServerConfig.default : ServerConfig :=
  { bind_address := "0.0.0.0", port := 9999, use_tls := false,
    tls_cert_path := none, tls_key_path := none, require_auth := false,
    max_connections := 5, client_timeout := 60, keep_alive_interval := 30 }

/-- `SessionInfo` from `network/mod.rs` (instants as Unix ms). -/
structure SessionInfo where
  id : String
  client_info : Option ClientInfo
  ip_address : String
  authenticated : Bool
  connection_time : Nat
  last_activity : Nat
  bytes_sent : Nat
  bytes_received : Nat
  quality : Nat
  last_latency : Option Nat

/-- `SessionInfo::new`. -/
def SessionInfo.new (id ip : String) (now : Nat) : SessionInfo :=
  { id := id, client_info := none, ip_address := ip, authenticated := false,
    connection_time := now, last_activity := now, bytes_sent := 0,
    bytes_received := 0, quality := 70, last_latency := none }

/-- A `FileTransfer` record of the `CommandProcessor`. -/
structure FileTransfer where
  id : Nat
  filename : String
  path : String
  size : Nat
  checksum : String
  fileOpen : Bool
  progress : Nat
  start_time : Nat

/-- The mutable state of `CommandProcessor` (the `HashMap` as an
association list). -/
structure CommandProcessor where
  active_transfers : List (Nat × FileTransfer)
  next_transfer_id : Nat

def CommandProcessor.new : CommandProcessor :=
  { active_transfers := [], next_transfer_id := 1 }

/-- The per-connection mutable state of `ClientSession`. -/
structure SessionState where
  session_info : SessionInfo
  active : Bool
  last_keep_alive : Nat
  processor : CommandProcessor

/-- The effects a session performs on its shared collaborators. -/
inductive Effect where
  | inputDispatch (c : Command)
  | backendCall (op : BackendOp)
  | captureScreen
  | captureMonitor (m : Nat)
  | resizeImage (w h : Option Nat)
  | encodeImage (fmt : ImageFormat) (quality : Nat)
  | systemInfoQuery
  | clipboardGet
  | clipboardSet (s : String)
  | createDirAll (p : String)
  | createFile (p : String)
  | writeFileChunk (id offset len : Nat)

/-- `CapturedImage` as the session consumes it (`capture/mod.rs`):
encoded bytes plus dimensions. -/
structure CapturedImage where
  data : List Nat
  width : Nat
  height : Nat

/-- One `SystemInfo` sample (`cpu_usage : f32` as ℚ). -/
structure SysInfoSample where
  cpu_model : String
  cpu_usage : ℚ
  total_memory : Nat
  used_memory : Nat
  os_version : String
  hostname : String
  uptime : Nat

/-- The environment of one `handle_command` call: the clock and the
outcome each collaborator call would produce. -/
structure Env where
  nowMs : Nat
  inputCfg : InputConfig
  backend : BackendOp → Option String
  authOutcome : Except String Unit
  captureRes : Except String CapturedImage
  captureMonitorRes : Nat → Except String CapturedImage
  resizeRes : CapturedImage → Option Nat → Option Nat → Except String CapturedImage
  encodeRes : CapturedImage → ImageFormat → Nat → Except String CapturedImage
  sysInfoRes : Except String SysInfoSample
  clipboardGetRes : Except String String
  clipboardSetRes : String → Except String Unit
  parentMissing : Bool
  createDirRes : Except String Unit
  createFileRes : String → Except String Unit
  seekRes : Nat → Except String Unit
  writeAllRes : Nat → List Nat → Except String Unit

/-- `CaptureOptions` from `session.rs`. -/
structure CaptureOptions where
  quality : Nat
  width : Option Nat
  height : Option Nat
  monitor : Option Nat

/-- Rust `{:?}` debug form of `ImageFormat`. -/
def imageFormatDebug : ImageFormat → String
  | .JPEG => "JPEG"
  | .PNG => "PNG"
  | .WebP => "WebP"
  | .AVIF => "AVIF"

/-- The display string of `NetworkError::Other` (thiserror derive). -/
def netErrOther (s : String) : String := "ネットワークエラー: " ++ s

/-- `ClientSession::take_screenshot`: capture (whole screen or one
monitor), optional resize, then encode as JPEG below quality 90 and PNG
from 90 up.  Errors carry the display string of the `NetworkError` the
source builds. -/
def take_screenshot (env : Env) (options : CaptureOptions) :
    Except String (CapturedImage × ImageFormat) × List Effect :=
  let (capRes, capEff) :=
    match options.monitor with
    | some m => (env.captureMonitorRes m, Effect.captureMonitor m)
    | none => (env.captureRes, Effect.captureScreen)
  match capRes with
  | .error e => (.error (netErrOther ("スクリーンキャプチャに失敗: " ++ e)), [capEff])
  | .ok img =>
    let (resizeRes, resizeEffs) :=
      if options.width.isSome ∨ options.height.isSome then
        (env.resizeRes img options.width options.height,
         [Effect.resizeImage options.width options.height])
      else (.ok img, [])
    match resizeRes with
    | .error e =>
      (.error (netErrOther ("画像のリサイズに失敗: " ++ e)), capEff :: resizeEffs)
    | .ok img2 =>
      let format := if options.quality < 90 then ImageFormat.JPEG else ImageFormat.PNG
      match env.encodeRes img2 format options.quality with
      | .error e =>
        (.error (netErrOther ("画像のエンコードに失敗: " ++ e)),
         capEff :: resizeEffs ++ [Effect.encodeImage format options.quality])
      | .ok encoded =>
        (.ok (encoded, format),
         capEff :: resizeEffs ++ [Effect.encodeImage format options.quality])

/-- The parent directory `Path::parent` would report for the join
result. -/
def parentDir (p : String) : String :=
  String.mk (joinSlash ((pathComponentChunks p).dropLast))

/-- `CommandProcessor::start_file_transfer` (the `file-transfer`
feature branch).  Note the transfer id is consumed before any
fallible step, and no component of `filename` is validated. -/
def start_file_transfer (env : Env) (proc : CommandProcessor)
    (filename : String) (size : Nat) (checksum : String) :
    CommandProcessor × Except String Nat × List Effect :=
  let transfer_id := proc.next_transfer_id
  let proc1 := { proc with next_transfer_id := proc.next_transfer_id + 1 }
  let path := pathJoin "received_files" filename
  let (dirRes, dirEffs) :=
    if env.parentMissing then (env.createDirRes, [Effect.createDirAll (parentDir path)])
    else (.ok (), [])
  match dirRes with
  | .error e => (proc1, .error ("ディレクトリの作成に失敗: " ++ e), dirEffs)
  | .ok _ =>
    match env.createFileRes path with
    | .error e =>
      (proc1, .error ("ファイルの作成に失敗: " ++ e), dirEffs ++ [Effect.createFile path])
    | .ok _ =>
      let transfer : FileTransfer :=
        { id := transfer_id, filename := filename, path := path, size := size,
          checksum := checksum, fileOpen := true, progress := 0,
          start_time := env.nowMs }
      ({ proc1 with active_transfers := (transfer_id, transfer) :: proc1.active_transfers },
       .ok transfer_id, dirEffs ++ [Effect.createFile path])

/-- Association-list update, for the `HashMap` entry mutation. -/
def updateTransfer (l : List (Nat × FileTransfer)) (id : Nat) (t : FileTransfer) :
    List (Nat × FileTransfer) :=
  l.map (fun kv => if kv.1 = id then (id, t) else kv)

/-- `CommandProcessor::process_file_data` (the `file-transfer` feature
branch). -/
def process_file_data (env : Env) (proc : CommandProcessor)
    (transfer_id : Nat) (data : List Nat) (offset : Nat) :
    CommandProcessor × Except String Nat × List Effect :=
  match (proc.active_transfers.lookup transfer_id) with
  | none => (proc, .error ("転送ID " ++ toString transfer_id ++ "は存在しません"), [])
  | some transfer =>
    if !transfer.fileOpen then
      (proc, .error "ファイルが開かれていません", [])
    else
      match env.seekRes offset with
      | .error e =>
        (proc, .error ("ファイルのシークに失敗: " ++ e),
         [Effect.writeFileChunk transfer_id offset data.length])
      | .ok _ =>
        match env.writeAllRes offset data with
        | .error e =>
          (proc, .error ("ファイルの書き込みに失敗: " ++ e),
           [Effect.writeFileChunk transfer_id offset data.length])
        | .ok _ =>
          let newProgress := max transfer.progress (offset + data.length)
          let finished := decide (newProgress ≥ transfer.size)
          let transfer2 :=
            { transfer with progress := newProgress, fileOpen := !finished }
          ({ proc with
              active_transfers := updateTransfer proc.active_transfers transfer_id transfer2 },
           .ok newProgress, [Effect.writeFileChunk transfer_id offset data.length])

/-- Wrap one routed input command: the dispatch into the locked
`InputHandler` plus its backend calls. -/
def routeInput (env : Env) (c : Command) :
    Except String Unit × List Effect :=
  let (ops, res) := inputHandleCommand env.inputCfg env.backend c
  (res, Effect.inputDispatch c :: ops.map Effect.backendCall)

/-- The per-command handlers of `ClientSession` (the big `match` after
the gate and keep-alive in `handle_command`). -/
def dispatchCommand (env : Env) (st : SessionState) :
    Command → SessionState × List Response × List Effect
  | .Authenticate _u _p ci =>
    let ok := env.authOutcome.isOk
    let st2 := { st with session_info :=
      { st.session_info with authenticated := ok, client_info := some ci } }
    let resp :=
      match env.authOutcome with
      | .ok _ => Response.AuthResult true "認証に成功しました"
      | .error e => Response.AuthResult false ("認証に失敗しました: " ++ e)
    (st2, [resp], [])
  | .RequestScreenshot q w h m =>
    let options : CaptureOptions :=
      { quality := q.getD st.session_info.quality, width := w, height := h, monitor := m }
    let (res, effs) := take_screenshot env options
    match res with
    | .ok (image, format) =>
      (st, [.ScreenshotData image.data format image.width image.height env.nowMs], effs)
    | .error e =>
      (st, [.Error 500 ("スクリーンショット取得に失敗しました: " ++ e)], effs)
  | .MouseMove x y =>
    let (res, effs) := routeInput env (.MouseMove x y)
    match res with
    | .ok _ => (st, [], effs)
    | .error e => (st, [.Error 500 ("マウス移動に失敗しました: " ++ e)], effs)
  | .MouseClick b d =>
    let (res, effs) := routeInput env (.MouseClick b d)
    match res with
    | .ok _ => (st, [.CommandResult true "マウスクリックを実行しました" none], effs)
    | .error e => (st, [.Error 500 ("マウスクリックに失敗しました: " ++ e)], effs)
  | .MouseDown b =>
    let (res, effs) := routeInput env (.MouseDown b)
    match res with
    | .ok _ => (st, [.CommandResult true "マウスボタンを押下しました" none], effs)
    | .error e => (st, [.Error 500 ("マウスボタン押下に失敗しました: " ++ e)], effs)
  | .MouseUp b =>
    let (res, effs) := routeInput env (.MouseUp b)
    match res with
    | .ok _ => (st, [.CommandResult true "マウスボタンを解放しました" none], effs)
    | .error e => (st, [.Error 500 ("マウスボタン解放に失敗しました: " ++ e)], effs)
  | .MouseScroll dx dy =>
    let (res, effs) := routeInput env (.MouseScroll dx dy)
    match res with
    | .ok _ => (st, [], effs)
    | .error e => (st, [.Error 500 ("マウススクロールに失敗しました: " ++ e)], effs)
  | .KeyDown k ms =>
    let (res, effs) := routeInput env (.KeyDown k ms)
    match res with
    | .ok _ => (st, [], effs)
    | .error e => (st, [.Error 500 ("キー押下に失敗しました: " ++ e)], effs)
  | .KeyUp k ms =>
    let (res, effs) := routeInput env (.KeyUp k ms)
    match res with
    | .ok _ => (st, [], effs)
    | .error e => (st, [.Error 500 ("キー解放に失敗しました: " ++ e)], effs)
  | .TextInput t =>
    let (res, effs) := routeInput env (.TextInput t)
    match res with
    | .ok _ => (st, [.CommandResult true "テキスト入力を実行しました" none], effs)
    | .error e => (st, [.Error 500 ("テキスト入力に失敗しました: " ++ e)], effs)
  | .KeyCombo ks ms =>
    let (res, effs) := routeInput env (.KeyCombo ks ms)
    match res with
    | .ok _ => (st, [.CommandResult true "キーコンビネーションを実行しました" none], effs)
    | .error e => (st, [.Error 500 ("キーコンビネーションに失敗しました: " ++ e)], effs)
  | .SetQuality q =>
    ({ st with session_info := { st.session_info with quality := q } },
     [.CommandResult true ("画質を設定しました: " ++ toString q) none], [])
  | .SetImageFormat f =>
    (st, [.CommandResult true ("画像フォーマットを設定しました: " ++ imageFormatDebug f) none], [])
  | .SetFps f =>
    (st, [.CommandResult true ("FPSを設定しました: " ++ toString f) none], [])
  | .RunApplication _ =>
    (st, [.Error 403 "アプリケーション実行は許可されていません"], [])
  | .RequestSystemInfo =>
    (match env.sysInfoRes with
     | .ok i =>
       (st, [.SystemInfo i.cpu_model i.cpu_usage i.total_memory i.used_memory
             i.os_version i.hostname i.uptime], [Effect.systemInfoQuery])
     | .error e =>
       (st, [.Error 500 ("システム情報の取得に失敗しました: " ++ e)], [Effect.systemInfoQuery]))
  | .RequestClipboardContent =>
    (match env.clipboardGetRes with
     | .ok c => (st, [.ClipboardContent c], [Effect.clipboardGet])
     | .error e =>
       (st, [.Error 500 ("クリップボードの取得に失敗しました: " ++ e)], [Effect.clipboardGet]))
  | .SetClipboardContent c =>
    (match env.clipboardSetRes c with
     | .ok _ => (st, [.CommandResult true "クリップボードを設定しました" none], [Effect.clipboardSet c])
     | .error e =>
       (st, [.Error 500 ("クリップボードの設定に失敗しました: " ++ e)], [Effect.clipboardSet c]))
  | .StartFileTransfer filename size checksum =>
    let (proc2, res, effs) := start_file_transfer env st.processor filename size checksum
    let st2 := { st with processor := proc2 }
    (match res with
     | .ok transfer_id =>
       (st2, [.FileTransferStatus transfer_id true "ファイル転送を開始しました" 0 size], effs)
     | .error e =>
       (st2, [.Error 500 ("ファイル転送の開始に失敗しました: " ++ e)], effs))
  | .FileData transfer_id data offset =>
    let (proc2, res, effs) := process_file_data env st.processor transfer_id data offset
    let st2 := { st with processor := proc2 }
    (match res with
     | .ok progress =>
       (st2, [.FileTransferStatus transfer_id true "ファイルデータを受信しました" progress
              (max progress (offset + data.length))], effs)
     | .error e =>
       (st2, [.Error 500 ("ファイルデータの処理に失敗しました: " ++ e)], effs))
  | .Ping timestamp =>
    let server_time := env.nowMs
    let st2 :=
      if 0 < timestamp then
        { st with session_info :=
          { st.session_info with last_latency := some (server_time - timestamp) } }
      else st
    (st2, [.Pong timestamp server_time], [])
  | .Disconnect =>
    ({ st with active := false }, [.ConnectionStatus false "サーバーから切断します"], [])

/-- The authentication gate of `handle_command`: every command except
`Authenticate` requires `require_auth → authenticated`. -/
def authGateBlocks (cfg : ServerConfig) (st : SessionState) : Command → Bool
  | .Authenticate _ _ _ => false
  | _ => cfg.require_auth && !st.session_info.authenticated

/-- `ClientSession::handle_command`: the authentication gate, then the
keep-alive check (`last_keep_alive.elapsed().as_secs() >=
keep_alive_interval`, measured since the last keep-alive send), then
the per-command dispatch.  Responses are listed in the order they are
written to the connection. -/
def handle_command (cfg : ServerConfig) (env : Env) (st : SessionState)
    (c : Command) : SessionState × List Response × List Effect :=
  if authGateBlocks cfg st c then
    (st, [.Error 401 "認証が必要です"], [])
  else
    let kaDue := decide ((env.nowMs - st.last_keep_alive) / 1000 ≥ cfg.keep_alive_interval)
    let st1 := if kaDue then { st with last_keep_alive := env.nowMs } else st
    let kaSends : List Response := if kaDue then [.Pong 0 env.nowMs] else []
    let (st2, sends, effs) := dispatchCommand env st1 c
    (st2, kaSends ++ sends, effs)

/-- `ClientSession::process_data` / `receive_and_process`: update
`last_activity`, then handle the decoded command. -/
def processCommand (cfg : ServerConfig) (env : Env) (st : SessionState)
    (c : Command) : SessionState × List Response × List Effect :=
  let st1 := { st with session_info := { st.session_info with last_activity := env.nowMs } }
  handle_command cfg env st1 c

/-- The environment used for concrete runs: clock at `now`, default
input config, and every collaborator call succeeding with fixed
values. -/
def defaultEnv (now : Nat) : Env :=
  { nowMs := now
    inputCfg := InputConfig.default
    backend := fun _ => none
    authOutcome := .ok ()
    captureRes := .ok ⟨[], 1920, 1080⟩
    captureMonitorRes := fun _ => .ok ⟨[], 1920, 1080⟩
    resizeRes := fun img _ _ => .ok img
    encodeRes := fun img _ _ => .ok img
    sysInfoRes := .ok ⟨"cpu", 0, 0, 0, "os", "host", 0⟩
    clipboardGetRes := .ok ""
    clipboardSetRes := fun _ => .ok ()
    parentMissing := true
    createDirRes := .ok ()
    createFileRes := fun _ => .ok ()
    seekRes := fun _ => .ok ()
    writeAllRes := fun _ _ => .ok () }

/-- The initial state of a session accepted at time `now`
(`ClientSession::new` + `SessionInfo::new`). -/
def initialSession (now : Nat) : SessionState :=
  { session_info := SessionInfo.new "session" "127.0.0.1:1" now
    active := true
    last_keep_alive := now
    processor := CommandProcessor.new }

/-- The session read loop, driven purely by incoming data: each
arriving command is processed at its arrival time with every
collaborator call succeeding.  The source has no timer; between
arrivals the loop blocks on `stream.read`, so nothing is emitted. -/
def runTrace (cfg : ServerConfig) : SessionState → List (Nat × Command) → List Response
  | _, [] => []
  | st, (t, c) :: rest =>
    let (st2, sends, _) := processCommand cfg (defaultEnv t) st c
    sends ++ runTrace cfg st2 rest

def isAuthenticateCmd : Command → Bool
  | .Authenticate _ _ _ => true
  | _ => false

/-- A solid-colour 8×8 test frame. -/
def constImage8 : Image := ⟨8, 8, fun _ _ => ⟨10, 20, 30, 255⟩⟩

/-- The configuration refuting C7's "for every configuration": a
non-positive `change_ratio_threshold` flags even blocks with zero
changed pixels, because `0 / block_pixels ≥ 0` holds. -/
def zeroThresholdConfig : DiffConfig :=
  { block_size := 8, threshold := 15, change_ratio_threshold := 0,
    merge_adjacent := true, min_diff_size := 8 }

/-! ## Verified properties -/

/-- C1: with `require_auth = true` and an unauthenticated session,
`handle_command` on any command other than `Authenticate` sends exactly
the single `Error{401}` response, performs no collaborator call, and
leaves the session state (in particular the `authenticated` flag)
unchanged. -/
theorem auth_gate_rejects_unauthenticated (cfg : ServerConfig) (env : Env)
    (st : SessionState) (c : Command)
    (hreq : cfg.require_auth = true)
    (hunauth : st.session_info.authenticated = false)
    (hc : isAuthenticateCmd c = false) :
    handle_command cfg env st c = (st, [.Error 401 "認証が必要です"], []) := by
  cases c <;> simp_all [handle_command, authGateBlocks, isAuthenticateCmd]

/-- Witness for C1 at `Ping{5}` on a fresh unauthenticated session. -/
theorem auth_gate_rejects_unauthenticated_witness :
    ({ ServerConfig.default with require_auth := true } : ServerConfig).require_auth = true ∧
    (initialSession 0).session_info.authenticated = false ∧
    isAuthenticateCmd (.Ping 5) = false ∧
    handle_command { ServerConfig.default with require_auth := true } (defaultEnv 0)
      (initialSession 0) (.Ping 5) =
      (initialSession 0, [.Error 401 "認証が必要です"], []) :=
  ⟨rfl, rfl, rfl,
   auth_gate_rejects_unauthenticated _ _ _ _ rfl rfl rfl⟩

/-- C4 (counterexample): `SetQuality{0}` stores quality `0` verbatim —
`handle_set_quality` never clamps, refuting "the stored session quality
afterwards equals q clamped to [1,100] (in particular never 0)". -/
theorem set_quality_zero_stored :
    (handle_command ServerConfig.default (defaultEnv 0) (initialSession 0)
      (.SetQuality 0)).1.session_info.quality = 0 ∧
    ¬(1 ≤ (handle_command ServerConfig.default (defaultEnv 0) (initialSession 0)
      (.SetQuality 0)).1.session_info.quality) := by
  constructor
  · rfl
  · intro h
    simp [handle_command, authGateBlocks, dispatchCommand, ServerConfig.default,
      defaultEnv, initialSession] at h

/-- C4 (amended): an authenticated (or auth-free) `SetQuality{q}`
stores `q` verbatim — no clamping — sends a `CommandResult` with
`success = true` as its final response, and performs no collaborator
call. -/
theorem set_quality_stores_verbatim (cfg : ServerConfig) (env : Env)
    (st : SessionState) (q : Nat)
    (hgate : authGateBlocks cfg st (.SetQuality q) = false) :
    (handle_command cfg env st (.SetQuality q)).1.session_info.quality = q ∧
    (handle_command cfg env st (.SetQuality q)).2.1.getLast? =
      some (.CommandResult true ("画質を設定しました: " ++ toString q) none) ∧
    (handle_command cfg env st (.SetQuality q)).2.2 = [] := by
  simp only [handle_command, hgate, Bool.false_eq_true, if_false, dispatchCommand]
  by_cases hka : ((env.nowMs - st.last_keep_alive) / 1000 ≥ cfg.keep_alive_interval) <;>
    simp [hka]

/-- Witness for C4 (amended) at `q = 0` on a fresh session without
authentication required. -/
theorem set_quality_stores_verbatim_witness :
    authGateBlocks ServerConfig.default (initialSession 0) (.SetQuality 0) = false ∧
    (handle_command ServerConfig.default (defaultEnv 0) (initialSession 0)
      (.SetQuality 0)).1.session_info.quality = 0 :=
  ⟨rfl, (set_quality_stores_verbatim ServerConfig.default (defaultEnv 0)
    (initialSession 0) 0 rfl).1⟩

/-- C2 (code bug): `StartFileTransfer{filename: "../escape.txt"}` is
accepted — the session answers `FileTransferStatus{success = true}` —
and the file created is `received_files/../escape.txt`, which resolves
outside the `received_files` directory.  No component of the filename
is checked anywhere in `start_file_transfer`. -/
theorem file_transfer_accepts_traversal :
    (handle_command ServerConfig.default (defaultEnv 0) (initialSession 0)
      (.StartFileTransfer "../escape.txt" 1 "")).2.1 =
      [.FileTransferStatus 1 true "ファイル転送を開始しました" 0 1] ∧
    (handle_command ServerConfig.default (defaultEnv 0) (initialSession 0)
      (.StartFileTransfer "../escape.txt" 1 "")).2.2 =
      [.createDirAll "received_files/..",
       .createFile "received_files/../escape.txt"] ∧
    staysInside "received_files" "received_files/../escape.txt" = false := by
  refine ⟨rfl, rfl, ?_⟩
  decide

/-- The framing helper shared by C3's theorems: `receive_message`
accepts any frame whose 4-byte big-endian prefix matches the number of
payload bytes that follow; there is no upper bound on the length. -/
theorem receive_message_ok (len : Nat) (payload rest : List Nat)
    (hlen : payload.length = len) (hlt : len < 2 ^ 32) :
    receive_message (lenBytesBE len ++ payload ++ rest) = .ok (payload, rest) := by
  have hbe : beU32 (lenBytesBE len) = len := by
    simp only [beU32, lenBytesBE]
    omega
  simp only [receive_message, lenBytesBE]
  simp only [List.cons_append, List.nil_append, List.length_cons]
  have h4 : ¬(payload ++ rest).length + 1 + 1 + 1 + 1 < 4 := by omega
  rw [if_neg (by simp only [List.length_append] at h4 ⊢; omega)]
  simp only [List.take_succ_cons, List.take_zero, List.drop_succ_cons, List.drop_zero]
  have : beU32 [len % 2 ^ 32 / 2 ^ 24, len % 2 ^ 24 / 2 ^ 16,
      len % 2 ^ 16 / 2 ^ 8, len % 2 ^ 8] = len := by
    simp only [beU32]; omega
  rw [this]
  rw [if_neg (by simp [List.length_append, hlen])]
  rw [List.take_append_of_le_length (by omega), List.drop_append_of_le_length (by omega)]
  simp [hlen]

/-- C3 (counterexample): a length prefix of 16 MiB + 1 does not fail
the connection — `receive_message` reads and returns the full payload.
Neither `TcpClientConnection::receive_message` nor the TLS variant
contains any length cap. -/
theorem receive_message_accepts_over_16mib :
    receive_message (lenBytesBE (16 * 1024 * 1024 + 1) ++
      List.replicate (16 * 1024 * 1024 + 1) 7) =
      .ok (List.replicate (16 * 1024 * 1024 + 1) 7, []) := by
  have h := receive_message_ok (16 * 1024 * 1024 + 1)
    (List.replicate (16 * 1024 * 1024 + 1) 7) []
    (List.length_replicate _ _) (by norm_num)
  rw [List.append_nil] at h
  exact h

/-- C3 (amended): every length prefix below `2^32` is accepted — the
receiver reads exactly that many payload bytes and returns them
(16 MiB exactly, and any larger value, included); the only failure mode
is a stream that ends before the announced length. -/
theorem receive_message_accepts_any_length (len : Nat) (payload rest : List Nat)
    (hlen : payload.length = len) (hlt : len < 2 ^ 32) :
    receive_message (lenBytesBE len ++ payload ++ rest) = .ok (payload, rest) :=
  receive_message_ok len payload rest hlen hlt

/-- Witness for C3 (amended) at a 5-byte frame. -/
theorem receive_message_accepts_any_length_witness :
    ([1, 2, 3, 4, 5] : List Nat).length = 5 ∧ 5 < 2 ^ 32 ∧
    receive_message (lenBytesBE 5 ++ [1, 2, 3, 4, 5] ++ [9]) =
      .ok ([1, 2, 3, 4, 5], [9]) :=
  ⟨rfl, by norm_num,
   receive_message_accepts_any_length 5 [1, 2, 3, 4, 5] [9] rfl (by norm_num)⟩

/-- No per-command handler touches `last_keep_alive`; only the
keep-alive block of `handle_command` does. -/
theorem dispatch_preserves_keep_alive (env : Env) (st : SessionState) (c : Command) :
    (dispatchCommand env st c).1.last_keep_alive = st.last_keep_alive := by
  cases c <;>
    simp only [dispatchCommand, routeInput, take_screenshot, start_file_transfer,
      process_file_data] <;>
    (repeat' split) <;> rfl

/-- C5 (counterexample): a session created at `t = 0` that receives a
single `MouseMove` at `t = 1 s` and then nothing emits no response at
all — in particular no unsolicited `Pong{original_timestamp = 0}` —
although `keep_alive_interval = 30 s` passes with no response having
been sent.  The source checks the keep-alive timer only inside
`handle_command`, so nothing is ever sent while no command arrives. -/
theorem keep_alive_needs_incoming_data :
    runTrace ServerConfig.default (initialSession 0) [(1000, .MouseMove 1 2)] = [] ∧
    ¬∃ ms, (Response.Pong 0 ms) ∈
      runTrace ServerConfig.default (initialSession 0) [(1000, .MouseMove 1 2)] := by
  have h : runTrace ServerConfig.default (initialSession 0)
      [(1000, .MouseMove 1 2)] = [] := rfl
  exact ⟨h, by simp [h]⟩

/-- C5 (amended): the keep-alive is piggybacked on command handling:
when a command passes the authentication gate and at least
`keep_alive_interval` seconds have elapsed since the last keep-alive
send (initially session creation), the engine emits an unsolicited
`Pong{original_timestamp = 0, server_time = now_ms}` ahead of the
command's own responses and resets the keep-alive clock; no keep-alive
is emitted while no command is being handled. -/
theorem keep_alive_piggybacks_on_commands (cfg : ServerConfig) (env : Env)
    (st : SessionState) (c : Command)
    (hgate : authGateBlocks cfg st c = false)
    (hdue : (env.nowMs - st.last_keep_alive) / 1000 ≥ cfg.keep_alive_interval) :
    (∃ rest, (handle_command cfg env st c).2.1 = .Pong 0 env.nowMs :: rest) ∧
    (handle_command cfg env st c).1.last_keep_alive = env.nowMs := by
  have hdec : decide ((env.nowMs - st.last_keep_alive) / 1000 ≥ cfg.keep_alive_interval)
      = true := decide_eq_true hdue
  rcases hd : dispatchCommand env { st with last_keep_alive := env.nowMs } c
    with ⟨st2, sends, effs⟩
  have hlka := dispatch_preserves_keep_alive env { st with last_keep_alive := env.nowMs } c
  rw [hd] at hlka
  refine ⟨⟨sends, ?_⟩, ?_⟩
  · simp [handle_command, hgate, hdec, hd]
  · simp only [handle_command, hgate, Bool.false_eq_true, if_false, hdec, if_true, hd]
    exact hlka

/-- Witness for C5 (amended): a `Ping` arriving 31 s after session
creation, with a 30 s keep-alive interval. -/
theorem keep_alive_piggybacks_on_commands_witness :
    authGateBlocks ServerConfig.default (initialSession 0) (.Ping 1) = false ∧
    (31000 - (initialSession 0).last_keep_alive) / 1000 ≥
      ServerConfig.default.keep_alive_interval ∧
    (∃ rest, (handle_command ServerConfig.default (defaultEnv 31000)
      (initialSession 0) (.Ping 1)).2.1 = .Pong 0 31000 :: rest) :=
  ⟨rfl, by decide,
   (keep_alive_piggybacks_on_commands ServerConfig.default (defaultEnv 31000)
     (initialSession 0) (.Ping 1) rfl (by decide)).1⟩

/-- C10: with the input handler's global `enabled` flag off,
`InputHandler::handle_command` succeeds without any backend call for
every routed input command, and the session consequently answers
`CommandResult{success = true}` to `MouseClick`, `TextInput`, and
`KeyCombo` even though nothing was injected. -/
theorem input_disabled_is_silent_success (cfg : ServerConfig) (env : Env)
    (st : SessionState)
    (hdis : env.inputCfg.enabled = false)
    (hgate : (cfg.require_auth && !st.session_info.authenticated) = false)
    (hka : ¬((env.nowMs - st.last_keep_alive) / 1000 ≥ cfg.keep_alive_interval)) :
    (∀ c, isInputCommand c = true →
      inputHandleCommand env.inputCfg env.backend c = ([], .ok ())) ∧
    (∀ b d, (handle_command cfg env st (.MouseClick b d)).2 =
      ([.CommandResult true "マウスクリックを実行しました" none],
       [.inputDispatch (.MouseClick b d)])) ∧
    (∀ t, (handle_command cfg env st (.TextInput t)).2 =
      ([.CommandResult true "テキスト入力を実行しました" none],
       [.inputDispatch (.TextInput t)])) ∧
    (∀ ks ms, (handle_command cfg env st (.KeyCombo ks ms)).2 =
      ([.CommandResult true "キーコンビネーションを実行しました" none],
       [.inputDispatch (.KeyCombo ks ms)])) := by
  have hdec : decide ((env.nowMs - st.last_keep_alive) / 1000 ≥ cfg.keep_alive_interval)
      = false := decide_eq_false hka
  refine ⟨fun c _ => by simp [inputHandleCommand, hdis], ?_, ?_, ?_⟩ <;>
    intros <;>
    simp [handle_command, authGateBlocks, hgate, hdec, dispatchCommand, routeInput,
      inputHandleCommand, hdis]

/-- Witness for C10: a left click on a session with input disabled. -/
theorem input_disabled_is_silent_success_witness :
    ({ defaultEnv 0 with inputCfg :=
        { InputConfig.default with enabled := false } } : Env).inputCfg.enabled = false ∧
    (handle_command ServerConfig.default
      { defaultEnv 0 with inputCfg := { InputConfig.default with enabled := false } }
      (initialSession 0) (.MouseClick .Left false)).2 =
      ([.CommandResult true "マウスクリックを実行しました" none],
       [.inputDispatch (.MouseClick .Left false)]) :=
  ⟨rfl,
   (input_disabled_is_silent_success ServerConfig.default
     { defaultEnv 0 with inputCfg := { InputConfig.default with enabled := false } }
     (initialSession 0) rfl rfl (by decide)).2.1 .Left false⟩

/-- C6: with no stored previous frame, or a stored frame whose width or
height differs, `calculate` returns the single full-frame rectangle
with change ratio 1. -/
theorem diff_full_frame_reset (cfg : DiffConfig) (prev : Option Image) (cur : Image)
    (h : prev = none ∨ ∃ p, prev = some p ∧ (p.width ≠ cur.width ∨ p.height ≠ cur.height)) :
    (calculate cfg prev cur).1.changed_regions = [⟨0, 0, cur.width, cur.height⟩] ∧
    (calculate cfg prev cur).1.change_ratio = 1 := by
  rcases h with rfl | ⟨p, rfl, hne⟩
  · exact ⟨rfl, rfl⟩
  · simp only [calculate]
    rw [if_pos hne]
    exact ⟨rfl, rfl⟩

/-- Witness for C6: the first frame ever handed to the engine. -/
theorem diff_full_frame_reset_witness :
    ((none : Option Image) = none ∨ ∃ p, (none : Option Image) = some p ∧
      (p.width ≠ constImage8.width ∨ p.height ≠ constImage8.height)) ∧
    (calculate DiffConfig.default none constImage8).1.changed_regions =
      [⟨0, 0, constImage8.width, constImage8.height⟩] ∧
    (calculate DiffConfig.default none constImage8).1.change_ratio = 1 :=
  ⟨Or.inl rfl, diff_full_frame_reset DiffConfig.default none constImage8 (Or.inl rfl)⟩

/-- C7 (counterexample): feeding the diff engine a frame byte-equal to
the stored previous frame with `change_ratio_threshold = 0` yields the
full 8×8 block as a changed region (the claim demands the empty list),
even though the change ratio is 0. -/
theorem diff_identical_flags_blocks_at_zero_threshold :
    (calculate zeroThresholdConfig (some constImage8) constImage8).1.changed_regions =
      [⟨0, 0, 8, 8⟩] ∧
    (calculate zeroThresholdConfig (some constImage8) constImage8).1.change_ratio = 0 := by
  have hentries : blockEntries zeroThresholdConfig constImage8 constImage8 =
      [(⟨0, 0, 8, 8⟩, 0)] := by decide
  have hflag : blockFlagged zeroThresholdConfig ((⟨0, 0, 8, 8⟩ : Rectangle), 0) = true := by
    simp [blockFlagged, zeroThresholdConfig]
  have hmerge : merge_adjacent_regions [(⟨0, 0, 8, 8⟩ : Rectangle)] = [⟨0, 0, 8, 8⟩] := by
    decide
  have hne : ¬(constImage8.width ≠ constImage8.width ∨
      constImage8.height ≠ constImage8.height) := by simp
  simp only [calculate]
  rw [if_neg hne, hentries]
  rw [List.filter_cons_of_pos hflag, List.filter_nil]
  simp only [List.map, List.sum_cons, List.sum_nil, Nat.cast_zero, zero_div]
  norm_num [zeroThresholdConfig, hmerge]

theorem pixel_diff_self (p : Pixel) : pixel_diff p p = 0 := by
  simp [pixel_diff]

/-- Every member of `blockStarts len bs` is a multiple of `bs` strictly
below `len`. -/
theorem mem_blockStarts_lt (len bs bx : Nat) (hbs : 0 < bs)
    (hmem : bx ∈ blockStarts len bs) : bx < len := by
  simp only [blockStarts, List.mem_map, List.mem_range] at hmem
  obtain ⟨i, hi, rfl⟩ := hmem
  have h1 : (i + 1) * bs ≤ ((len + bs - 1) / bs) * bs :=
    Nat.mul_le_mul_right bs hi
  have h2 : ((len + bs - 1) / bs) * bs ≤ len + bs - 1 := Nat.div_mul_le_self _ _
  have h3 : (i + 1) * bs = i * bs + bs := by ring
  omega

/-- In a block fully inside two pixel-identical frames, no pixel is
counted as changed. -/
theorem blockChangedPixels_eq_zero (p cur : Image) (thr bx by0 bw bh : Nat)
    (hx : bx + bw ≤ cur.width) (hy : by0 + bh ≤ cur.height)
    (hpix : ∀ x, x < cur.width → ∀ y, y < cur.height → p.pix x y = cur.pix x y) :
    blockChangedPixels p cur thr bx by0 bw bh = 0 := by
  apply List.sum_eq_zero
  intro n hn
  simp only [List.mem_map, List.mem_range] at hn
  obtain ⟨dy, hdy, rfl⟩ := hn
  simp only [List.length_eq_zero]
  rw [List.filter_eq_nil_iff]
  intro dx hdx
  simp only [List.mem_range] at hdx
  have hxd : bx + dx < cur.width := by omega
  have hyd : by0 + dy < cur.height := by omega
  rw [hpix _ hxd _ hyd, pixel_diff_self]
  simp

/-- With a strictly positive ratio threshold, a block with zero changed
pixels is not flagged. -/
theorem blockFlagged_zero (cfg : DiffConfig) (hthr : 0 < cfg.change_ratio_threshold)
    (r : Rectangle) : blockFlagged cfg (r, 0) = false := by
  simp only [blockFlagged, Nat.cast_zero, zero_div, ge_iff_le,
    decide_eq_false_iff_not, not_le]
  exact hthr

/-- C7 (amended): for identical frames of equal positive dimensions the
diff is empty — changed regions `[]`, ratio `0`, zero changed pixels —
for every configuration with `0 < block_size` (Rust panics on zero) and
`0 < change_ratio_threshold` (a non-positive threshold flags unchanged
blocks). -/
theorem diff_identical_frames_no_regions (cfg : DiffConfig) (p cur : Image)
    (hbs : 0 < cfg.block_size) (hthr : 0 < cfg.change_ratio_threshold)
    (hw : p.width = cur.width) (hh : p.height = cur.height)
    (_hwpos : 0 < cur.width) (_hhpos : 0 < cur.height)
    (hpix : ∀ x, x < cur.width → ∀ y, y < cur.height → p.pix x y = cur.pix x y) :
    (calculate cfg (some p) cur).1.changed_regions = [] ∧
    (calculate cfg (some p) cur).1.change_ratio = 0 ∧
    (calculate cfg (some p) cur).1.changed_pixels = 0 := by
  have hflag : (blockEntries cfg p cur).filter (blockFlagged cfg) = [] := by
    rw [List.filter_eq_nil_iff]
    intro e he
    simp only [blockEntries, List.mem_flatMap, List.mem_map] at he
    obtain ⟨by0, hby, bx, hbx, rfl⟩ := he
    have hxlt := mem_blockStarts_lt _ _ _ hbs hbx
    have hylt := mem_blockStarts_lt _ _ _ hbs hby
    have hcnt : blockChangedPixels p cur cfg.threshold bx by0
        (min cfg.block_size (cur.width - bx)) (min cfg.block_size (cur.height - by0)) = 0 := by
      apply blockChangedPixels_eq_zero p cur _ _ _ _ _ _ _ hpix
      · have := Nat.min_le_right cfg.block_size (cur.width - bx); omega
      · have := Nat.min_le_right cfg.block_size (cur.height - by0); omega
    rw [hcnt, blockFlagged_zero cfg hthr]
    simp
  have hne : ¬(p.width ≠ cur.width ∨ p.height ≠ cur.height) := by simp [hw, hh]
  simp only [calculate]
  rw [if_neg hne]
  have hmerge : merge_adjacent_regions [] = [] := rfl
  refine ⟨?_, ?_, ?_⟩ <;> simp [hflag, hmerge]

/-- Witness for C7 (amended): two identical 8×8 frames at the default
configuration. -/
theorem diff_identical_frames_no_regions_witness :
    0 < DiffConfig.default.block_size ∧
    0 < DiffConfig.default.change_ratio_threshold ∧
    (calculate DiffConfig.default (some constImage8) constImage8).1.changed_regions = [] ∧
    (calculate DiffConfig.default (some constImage8) constImage8).1.change_ratio = 0 :=
  ⟨by decide, by norm_num [DiffConfig.default],
   (diff_identical_frames_no_regions DiffConfig.default constImage8 constImage8
     (by decide) (by norm_num [DiffConfig.default]) rfl rfl (by decide) (by decide)
     (fun _ _ _ _ => rfl)).1,
   (diff_identical_frames_no_regions DiffConfig.default constImage8 constImage8
     (by decide) (by norm_num [DiffConfig.default]) rfl rfl (by decide) (by decide)
     (fun _ _ _ _ => rfl)).2.1⟩

/-! ### C8: the merged dirty regions are pairwise non-overlapping

The grid tiles produced by the block loop are pairwise disjoint
(distinct tiles are separated by at least one full block step along x
or y), and `merge_adjacent_regions` is the identity on a list of
pairwise non-overlapping rectangles: the sweep never finds anything to
absorb, so every input rectangle is pushed unchanged. -/

theorem overlaps_false_of_le_x {a b : Rectangle} (h : a.x + a.width ≤ b.x) :
    a.overlaps b = false ∧ b.overlaps a = false := by
  constructor
  · have h2 : ¬(a.x + a.width > b.x) := by omega
    simp [Rectangle.overlaps, h2]
  · have h2 : ¬(b.x < a.x + a.width) := by omega
    simp [Rectangle.overlaps, h2]

theorem overlaps_false_of_le_y {a b : Rectangle} (h : a.y + a.height ≤ b.y) :
    a.overlaps b = false ∧ b.overlaps a = false := by
  constructor
  · have h2 : ¬(a.y + a.height > b.y) := by omega
    simp [Rectangle.overlaps, h2]
  · have h2 : ¬(b.y < a.y + a.height) := by omega
    simp [Rectangle.overlaps, h2]

/-- Consecutive block starts are at least one block step apart. -/
theorem blockStarts_gap (len bs : Nat) :
    (blockStarts len bs).Pairwise (fun a b => a + bs ≤ b) := by
  unfold blockStarts
  rw [List.pairwise_map]
  apply (List.pairwise_lt_range _).imp
  intro i j hij
  have h2 : (i + 1) * bs ≤ j * bs := Nat.mul_le_mul_right bs hij
  have h3 : (i + 1) * bs = i * bs + bs := by ring
  omega

/-- Distinct grid tiles never overlap. -/
theorem blockEntries_pairwise (cfg : DiffConfig) (p cur : Image) :
    ((blockEntries cfg p cur).map Prod.fst).Pairwise
      (fun a b => a.overlaps b = false ∧ b.overlaps a = false) := by
  rw [List.pairwise_map]
  unfold blockEntries
  rw [List.pairwise_flatMap]
  constructor
  · intro by0 _
    rw [List.pairwise_map]
    apply (blockStarts_gap cur.width cfg.block_size).imp
    intro bx1 bx2 hgap
    apply overlaps_false_of_le_x
    have := Nat.min_le_left cfg.block_size (cur.width - bx1)
    simp only []
    omega
  · apply (blockStarts_gap cur.height cfg.block_size).imp
    intro by1 by2 hgap e1 he1 e2 he2
    simp only [List.mem_map] at he1 he2
    obtain ⟨bx1, _, rfl⟩ := he1
    obtain ⟨bx2, _, rfl⟩ := he2
    apply overlaps_false_of_le_y
    have := Nat.min_le_left cfg.block_size (cur.height - by1)
    simp only []
    omega

/-- If the current region overlaps no unmerged entry, one sweep pass
changes nothing. -/
theorem sweepOnce_id (cur : Rectangle) (l : List (Rectangle × Bool))
    (h : ∀ rb ∈ l, rb.2 = false → cur.overlaps rb.1 = false) :
    sweepOnce cur l = (cur, l, false) := by
  induction l with
  | nil => rfl
  | cons hd tl ih =>
    obtain ⟨r, m⟩ := hd
    have ihtl := ih (fun rb hm => h rb (List.mem_cons_of_mem _ hm))
    cases m
    · have ho := h (r, false) (List.mem_cons_self _ _) rfl
      simp [sweepOnce, ho, ihtl]
    · simp [sweepOnce, ihtl]

theorem sweepLoop_id (fuel : Nat) (cur : Rectangle) (l : List (Rectangle × Bool))
    (h : ∀ rb ∈ l, rb.2 = false → cur.overlaps rb.1 = false) :
    sweepLoop fuel cur l = (cur, l) := by
  cases fuel with
  | zero => rfl
  | succ n => simp [sweepLoop, sweepOnce_id cur l h]

theorem set_append_length (l1 : List α) (x y : α) (l2 : List α) :
    (l1 ++ x :: l2).set l1.length y = l1 ++ y :: l2 := by
  induction l1 with
  | nil => rfl
  | cons a tl ih => simp [List.set, ih]

/-- The outer loop of `merge_adjacent_regions` reproduces the input
when the pending rectangles are pairwise non-overlapping. -/
theorem mergeOuter_id (remaining : List Rectangle) :
    ∀ processed : List Rectangle,
    remaining.Pairwise (fun a b => a.overlaps b = false) →
    mergeOuter (processed.map (fun r => (r, true)) ++ remaining.map (fun r => (r, false)))
      processed.length remaining.length = remaining := by
  induction remaining with
  | nil => intro processed _; rfl
  | cons r rest ih =>
    intro processed hpair
    have hget : (processed.map (fun r => (r, true)) ++
        (r, false) :: rest.map (fun r => (r, false)))[processed.length]? = some (r, false) := by
      rw [List.getElem?_append_right (by simp)]
      simp
    have hset : (processed.map (fun r => (r, true)) ++
        (r, false) :: rest.map (fun r => (r, false))).set
          (processed.map (fun r : Rectangle => (r, true))).length (r, true) =
        processed.map (fun r => (r, true)) ++ (r, true) :: rest.map (fun r => (r, false)) :=
      set_append_length _ _ _ _
    have hnool : ∀ rb ∈ processed.map (fun r => (r, true)) ++
        (r, true) :: rest.map (fun r => (r, false)), rb.2 = false →
        r.overlaps rb.1 = false := by
      intro rb hm hfalse
      rcases List.mem_append.mp hm with hm1 | hm2
      · obtain ⟨_, _, rfl⟩ := List.mem_map.mp hm1
        simp at hfalse
      · rcases List.mem_cons.mp hm2 with rfl | hm3
        · simp at hfalse
        · obtain ⟨r2, hr2, rfl⟩ := List.mem_map.mp hm3
          exact (List.pairwise_cons.mp hpair).1 r2 hr2
    simp only [List.map_cons, List.length_cons]
    show mergeOuter (processed.map (fun r => (r, true)) ++
      (r, false) :: rest.map (fun r => (r, false))) processed.length (rest.length + 1) = r :: rest
    rw [mergeOuter]
    simp only [hget]
    rw [show (processed.map (fun r : Rectangle => (r, true))).length = processed.length
      from by simp] at hset
    simp only [hset]
    rw [sweepLoop_id _ _ _ hnool]
    have hrw : processed.map (fun r => (r, true)) ++ (r, true) :: rest.map (fun r => (r, false)) =
        (processed ++ [r]).map (fun r => (r, true)) ++ rest.map (fun r => (r, false)) := by
      simp [List.map_append]
    have hlen : processed.length + 1 = (processed ++ [r]).length := by simp
    rw [hrw, hlen, ih (processed ++ [r]) (List.pairwise_cons.mp hpair).2]
    simp

/-- `merge_adjacent_regions` is the identity on pairwise
non-overlapping input. -/
theorem merge_adjacent_regions_id (regions : List Rectangle)
    (h : regions.Pairwise (fun a b => a.overlaps b = false)) :
    merge_adjacent_regions regions = regions := by
  unfold merge_adjacent_regions
  cases regions with
  | nil => rfl
  | cons r rest =>
    rw [if_neg (by simp)]
    exact mergeOuter_id (r :: rest) [] h

/-- C8: every `DiffResult` produced by `calculate` with
`merge_adjacent = true` (and a positive block size — `step_by(0)`
panics) has pairwise non-overlapping `changed_regions`. -/
theorem changed_regions_pairwise_disjoint (cfg : DiffConfig) (prev : Option Image)
    (cur : Image) (_hbs : 0 < cfg.block_size) (hma : cfg.merge_adjacent = true) :
    (calculate cfg prev cur).1.changed_regions.Pairwise
      (fun a b => a.overlaps b = false ∧ b.overlaps a = false) := by
  have hmain : ∀ p : Image, ¬(p.width ≠ cur.width ∨ p.height ≠ cur.height) →
      (calculate cfg (some p) cur).1.changed_regions.Pairwise
        (fun a b => a.overlaps b = false ∧ b.overlaps a = false) := by
    intro p hne
    simp only [calculate]
    rw [if_neg hne]
    have hpw : (((blockEntries cfg p cur).filter (blockFlagged cfg)).map Prod.fst).Pairwise
        (fun a b => a.overlaps b = false ∧ b.overlaps a = false) :=
      List.Pairwise.sublist (List.Sublist.map _ (List.filter_sublist _))
        (blockEntries_pairwise cfg p cur)
    have hid : merge_adjacent_regions
        (((blockEntries cfg p cur).filter (blockFlagged cfg)).map Prod.fst) =
        ((blockEntries cfg p cur).filter (blockFlagged cfg)).map Prod.fst :=
      merge_adjacent_regions_id _ (hpw.imp And.left)
    simp only [hma, if_true, hid]
    split
    · exact List.Pairwise.sublist (List.filter_sublist _) hpw
    · exact hpw
  match prev with
  | none => exact List.pairwise_singleton _ _
  | some p =>
    by_cases hne : (p.width ≠ cur.width ∨ p.height ≠ cur.height)
    · simp only [calculate]
      rw [if_pos hne]
      exact List.pairwise_singleton _ _
    · exact hmain p hne

/-- Witness for C8: the first frame (full-frame singleton result) at
the default configuration. -/
theorem changed_regions_pairwise_disjoint_witness :
    0 < DiffConfig.default.block_size ∧ DiffConfig.default.merge_adjacent = true ∧
    (calculate DiffConfig.default none constImage8).1.changed_regions.Pairwise
      (fun a b => a.overlaps b = false ∧ b.overlaps a = false) :=
  ⟨by decide, rfl,
   changed_regions_pairwise_disjoint DiffConfig.default none constImage8 (by decide) rfl⟩

/-! ### C9: round-tripping the protocol through the JSON codec -/

theorem Rat_ofInt_num (i : Int) : (Rat.ofInt i).num = i := rfl

theorem Rat_ofInt_den (i : Int) : (Rat.ofInt i).den = 1 := rfl

theorem decNatLt_num {bound n : Nat} (h : n < bound) :
    decNatLt bound (.num (Rat.ofInt (Int.ofNat n))) = some n := by
  have hc : (Rat.ofInt (Int.ofNat n)).den = 1 ∧ 0 ≤ (Rat.ofInt (Int.ofNat n)).num ∧
      (Rat.ofInt (Int.ofNat n)).num < Int.ofNat bound :=
    ⟨rfl, Int.ofNat_nonneg n, Int.ofNat_lt.mpr h⟩
  simp only [decNatLt]
  rw [if_pos hc]
  rfl

theorem decNatLt_encU {bound n : Nat} (h : n < bound) :
    decNatLt bound (encU n) = some n := by
  simp only [encU]
  exact decNatLt_num h

theorem decIntRange_num {lo hi i : Int} (h1 : lo ≤ i) (h2 : i < hi) :
    decIntRange lo hi (.num (Rat.ofInt i)) = some i := by
  have hc : (Rat.ofInt i).den = 1 ∧ lo ≤ (Rat.ofInt i).num ∧ (Rat.ofInt i).num < hi :=
    ⟨rfl, h1, h2⟩
  simp only [decIntRange]
  rw [if_pos hc]
  rfl

theorem decIntRange_encI {lo hi i : Int} (h1 : lo ≤ i) (h2 : i < hi) :
    decIntRange lo hi (encI i) = some i := by
  simp only [encI]
  exact decIntRange_num h1 h2

theorem opt_all_lt {bound : Nat} {q : Option Nat}
    (h : (q.all fun n => decide (n < bound)) = true) :
    ∀ n, q = some n → n < bound := by
  intro n hn
  subst hn
  simpa using h

theorem decListWith_map {α} (d : Json → Option α) (e : α → Json) (xs : List α)
    (h : ∀ x ∈ xs, d (e x) = some x) :
    decListWith d (xs.map e) = some xs := by
  induction xs with
  | nil => rfl
  | cons x tl ih =>
    simp only [List.map_cons, decListWith, h x (by simp),
      ih (fun a ha => h a (by simp [ha])), Option.bind_eq_bind, Option.some_bind]

theorem decMouseButton_enc (b : MouseButton) :
    decMouseButton (encMouseButton b) = some b := by
  cases b <;> rfl

theorem decKeyModifier_enc (m : KeyModifier) :
    decKeyModifier (encKeyModifier m) = some m := by
  cases m <;> rfl

theorem decImageFormat_enc (f : ImageFormat) :
    decImageFormat (encImageFormat f) = some f := by
  cases f <;> rfl

theorem decArr_mods (ms : List KeyModifier) :
    decArr decKeyModifier (.arr (ms.map encKeyModifier)) = some ms := by
  simp only [decArr]
  exact decListWith_map _ _ ms (fun m _ => decKeyModifier_enc m)

theorem decArr_nats {bound : Nat} (ks : List Nat) (h : ∀ k ∈ ks, k < bound) :
    decArr (decNatLt bound) (.arr (ks.map encU)) = some ks := by
  simp only [decArr]
  exact decListWith_map _ _ ks (fun k hk => decNatLt_encU (h k hk))

theorem decArr_strs (ss : List String) :
    decArr decStr (.arr (ss.map Json.str)) = some ss := by
  simp only [decArr]
  exact decListWith_map _ _ ss (fun s _ => rfl)

theorem decClientInfo_enc (ci : ClientInfo)
    (h1 : ci.screen_width < u32Lim) (h2 : ci.screen_height < u32Lim) :
    decClientInfo (encClientInfo ci) = some ci := by
  simp [encClientInfo, decClientInfo, reqField, jLookup, decStr,
    decNatLt_encU h1, decNatLt_encU h2, decArr_strs]

theorem decOptWith_u {bound : Nat} (q : Option Nat) (h : ∀ n, q = some n → n < bound) :
    decOptWith (decNatLt bound) (encOptWith encU q) = some q := by
  cases q with
  | none => rfl
  | some n =>
    simp only [encOptWith, encU, decOptWith, decNatLt_num (h n rfl)]
    rfl

theorem decOptWith_value (d : Option Json) (h : d ≠ some .null) :
    decOptWith some (encOptWith id d) = some d := by
  cases d with
  | none => rfl
  | some j => cases j with
    | null => exact absurd rfl h
    | bool b => rfl
    | num q => rfl
    | str s => rfl
    | arr xs => rfl
    | obj fs => rfl

/-- Round trip for every representable `Command` value. -/
theorem command_roundtrip_aux (c : Command) (h : wfCommand c = true) :
    fromJsonCommand (toJsonCommand c) = some c := by
  cases c with
  | Authenticate u p ci =>
    simp only [wfCommand, Bool.and_eq_true, decide_eq_true_eq] at h
    simp [toJsonCommand, fromJsonCommand, decAuthenticateBody, reqField, jLookup,
      decStr, decClientInfo_enc ci h.1 h.2]
  | RequestScreenshot q w hh m =>
    simp only [wfCommand, Bool.and_eq_true] at h
    obtain ⟨⟨⟨hq, hw⟩, hhh⟩, hm⟩ := h
    simp [toJsonCommand, fromJsonCommand, decRequestScreenshotBody, optField, jLookup,
      decOptWith_u q (opt_all_lt hq), decOptWith_u w (opt_all_lt hw),
      decOptWith_u hh (opt_all_lt hhh), decOptWith_u m (opt_all_lt hm)]
  | MouseMove x y =>
    simp only [wfCommand, Bool.and_eq_true, decide_eq_true_eq] at h
    obtain ⟨⟨⟨h1, h2⟩, h3⟩, h4⟩ := h
    simp [toJsonCommand, fromJsonCommand, decMouseMoveBody, reqField, jLookup,
      decIntRange_encI h1 h2, decIntRange_encI h3 h4]
  | MouseClick b d =>
    simp [toJsonCommand, fromJsonCommand, decMouseClickBody, reqField, jLookup,
      decMouseButton_enc b, decBool]
  | MouseDown b =>
    simp [toJsonCommand, fromJsonCommand, decMouseDownBody, reqField, jLookup,
      decMouseButton_enc b]
  | MouseUp b =>
    simp [toJsonCommand, fromJsonCommand, decMouseUpBody, reqField, jLookup,
      decMouseButton_enc b]
  | MouseScroll dx dy =>
    simp only [wfCommand, Bool.and_eq_true, decide_eq_true_eq] at h
    obtain ⟨⟨⟨h1, h2⟩, h3⟩, h4⟩ := h
    simp [toJsonCommand, fromJsonCommand, decMouseScrollBody, reqField, jLookup,
      decIntRange_encI h1 h2, decIntRange_encI h3 h4]
  | KeyDown k ms =>
    simp only [wfCommand, decide_eq_true_eq] at h
    simp [toJsonCommand, fromJsonCommand, decKeyDownBody, reqField, jLookup,
      decNatLt_encU h, decArr_mods]
  | KeyUp k ms =>
    simp only [wfCommand, decide_eq_true_eq] at h
    simp [toJsonCommand, fromJsonCommand, decKeyUpBody, reqField, jLookup,
      decNatLt_encU h, decArr_mods]
  | TextInput t =>
    simp [toJsonCommand, fromJsonCommand, decTextInputBody, reqField, jLookup, decStr]
  | KeyCombo ks ms =>
    simp only [wfCommand, List.all_eq_true, decide_eq_true_eq] at h
    simp [toJsonCommand, fromJsonCommand, decKeyComboBody, reqField, jLookup,
      decArr_nats ks h, decArr_mods]
  | SetQuality q =>
    simp only [wfCommand, decide_eq_true_eq] at h
    simp [toJsonCommand, fromJsonCommand, decSetQualityBody, reqField, jLookup,
      decNatLt_encU h]
  | SetImageFormat f =>
    simp [toJsonCommand, fromJsonCommand, decSetImageFormatBody, reqField, jLookup,
      decImageFormat_enc f]
  | SetFps f =>
    simp only [wfCommand, decide_eq_true_eq] at h
    simp [toJsonCommand, fromJsonCommand, decSetFpsBody, reqField, jLookup,
      decNatLt_encU h]
  | RunApplication cmd =>
    simp [toJsonCommand, fromJsonCommand, decRunApplicationBody, reqField, jLookup, decStr]
  | RequestSystemInfo => rfl
  | RequestClipboardContent => rfl
  | SetClipboardContent content =>
    simp [toJsonCommand, fromJsonCommand, decSetClipboardContentBody, reqField, jLookup,
      decStr]
  | StartFileTransfer f s ck =>
    simp only [wfCommand, decide_eq_true_eq] at h
    simp [toJsonCommand, fromJsonCommand, decStartFileTransferBody, reqField, jLookup,
      decNatLt_encU h, decStr]
  | FileData id d o =>
    simp only [wfCommand, Bool.and_eq_true, List.all_eq_true, decide_eq_true_eq] at h
    obtain ⟨⟨h1, h2⟩, h3⟩ := h
    simp [toJsonCommand, fromJsonCommand, decFileDataBody, reqField, jLookup,
      decNatLt_encU h1, decNatLt_encU h3, decArr_nats d h2]
  | Ping t =>
    simp only [wfCommand, decide_eq_true_eq] at h
    simp [toJsonCommand, fromJsonCommand, decPingBody, reqField, jLookup,
      decNatLt_encU h]
  | Disconnect => rfl

/-- Round trip for every representable `Response` value whose
`CommandResult.data` is not `Some(Value::Null)`. -/
theorem response_roundtrip_aux (r : Response) (h : wfResponse r = true)
    (hd : dataFieldStable r = true) :
    fromJsonResponse (toJsonResponse r) = some r := by
  cases r with
  | AuthResult s m =>
    simp [toJsonResponse, fromJsonResponse, decAuthResultBody, reqField, jLookup, decBool,
      decStr]
  | ScreenshotData d f w hh t =>
    simp only [wfResponse, Bool.and_eq_true, List.all_eq_true, decide_eq_true_eq] at h
    obtain ⟨⟨⟨h1, h2⟩, h3⟩, h4⟩ := h
    simp [toJsonResponse, fromJsonResponse, decScreenshotDataBody, reqField, jLookup,
      decArr_nats d h1, decImageFormat_enc f, decNatLt_encU h2, decNatLt_encU h3,
      decNatLt_encU h4]
  | CommandResult s m d =>
    have hdn : d ≠ some .null := by
      intro hdd
      rw [hdd] at hd
      simp [dataFieldStable] at hd
    simp [toJsonResponse, fromJsonResponse, decCommandResultBody, reqField, optField,
      jLookup, decBool, decStr, decOptWith_value d hdn]
  | SystemInfo cm cu tm um ov hn up =>
    simp only [wfResponse, Bool.and_eq_true, decide_eq_true_eq] at h
    obtain ⟨⟨h1, h2⟩, h3⟩ := h
    simp [toJsonResponse, fromJsonResponse, decSystemInfoBody, reqField, jLookup,
      decStr, decRat, decNatLt_encU h1, decNatLt_encU h2, decNatLt_encU h3]
  | ClipboardContent c =>
    simp [toJsonResponse, fromJsonResponse, decClipboardContentBody, reqField, jLookup,
      decStr]
  | FileTransferStatus id s m p t =>
    simp only [wfResponse, Bool.and_eq_true, decide_eq_true_eq] at h
    obtain ⟨⟨h1, h2⟩, h3⟩ := h
    simp [toJsonResponse, fromJsonResponse, decFileTransferStatusBody, reqField, jLookup,
      decBool, decStr, decNatLt_encU h1, decNatLt_encU h2, decNatLt_encU h3]
  | ConnectionStatus c m =>
    simp [toJsonResponse, fromJsonResponse, decConnectionStatusBody, reqField, jLookup,
      decBool, decStr]
  | Pong o s =>
    simp only [wfResponse, Bool.and_eq_true, decide_eq_true_eq] at h
    obtain ⟨h1, h2⟩ := h
    simp [toJsonResponse, fromJsonResponse, decPongBody, reqField, jLookup,
      decNatLt_encU h1, decNatLt_encU h2]
  | Error c m =>
    simp only [wfResponse, Bool.and_eq_true, decide_eq_true_eq] at h
    obtain ⟨h1, h2⟩ := h
    simp [toJsonResponse, fromJsonResponse, decErrorBody, reqField, jLookup,
      decIntRange_encI h1 h2, decStr]

/-- C9 (counterexample): `CommandResult{data: Some(Value::Null)}`
serializes its data field to `null`, which deserializes back to `None`:
decode ∘ encode is not the identity on this `Response` value. -/
theorem codec_drops_some_null_data :
    fromJsonResponse (toJsonResponse (.CommandResult true "ok" (some .null))) =
      some (.CommandResult true "ok" none) ∧
    fromJsonResponse (toJsonResponse (.CommandResult true "ok" (some .null))) ≠
      some (.CommandResult true "ok" (some .null)) := by
  have h : fromJsonResponse (toJsonResponse (.CommandResult true "ok" (some .null))) =
      some (.CommandResult true "ok" none) := rfl
  refine ⟨h, ?_⟩
  rw [h]
  simp

/-- C9 (amended): decode ∘ encode is the identity on every `Command`
value and every `Response` value representable in the Rust types
(integer fields within machine width, exact number representation)
except responses carrying `data = Some(Value::Null)`, which the serde
`Option<Value>` encoding collapses to `None`. -/
theorem codec_roundtrip_on_representable :
    (∀ c : Command, wfCommand c = true →
      fromJsonCommand (toJsonCommand c) = some c) ∧
    (∀ r : Response, wfResponse r = true → dataFieldStable r = true →
      fromJsonResponse (toJsonResponse r) = some r) :=
  ⟨command_roundtrip_aux, response_roundtrip_aux⟩

/-- Witness for C9 at a `KeyCombo` command and a `Pong` response. -/
theorem codec_roundtrip_on_representable_witness :
    wfCommand (.KeyCombo [17, 67] [.Control]) = true ∧
    fromJsonCommand (toJsonCommand (.KeyCombo [17, 67] [.Control])) =
      some (.KeyCombo [17, 67] [.Control]) ∧
    wfResponse (.Pong 1000 2000) = true ∧ dataFieldStable (.Pong 1000 2000) = true ∧
    fromJsonResponse (toJsonResponse (.Pong 1000 2000)) = some (.Pong 1000 2000) :=
  ⟨by decide, codec_roundtrip_on_representable.1 _ (by decide),
   by decide, rfl, codec_roundtrip_on_representable.2 _ (by decide) rfl⟩

end RemoteDesktopRs
